import Mathlib

/-!
Shallow embedding of the NRI validation layer (`Source/Validation/DeviceVal.cpp`).

The embedding models the validation-layer state (proxy objects with their
recorded metadata) and the device entry points that the specification's
claims are about.  Machine integers are modelled as `Nat`; the one place
where 64-bit wrap-around is observable (`rangeMax = offset + memoryDesc.size`
computed in `uint64_t`) is made explicit with `wrap64`.  The backend is an
oracle: its result codes and the memory requirements it reports are inputs
to the embedded functions.  A `REPORT_ERROR`/`RETURN_ON_FAILURE` failure is
an `INVALID_ARGUMENT` result with no state change, exactly as in the source.
-/

namespace NRIVal

/-- Result codes (subset of the `nri::Result` enumeration used by the
modelled entry points). -/
inductive Result where
  | SUCCESS
  | FAILURE
  | INVALID_ARGUMENT
  | OUT_OF_MEMORY
  | DEVICE_LOST
deriving DecidableEq, Repr

/-- `nri::MemoryDesc` as reported by the backend requirement queries
(`GetBufferMemoryDesc`, `GetTextureMemoryDesc`,
`GetAccelerationStructureMemoryDesc`): size, alignment and the
"must be dedicated" flag. -/
structure MemReq where
  size : Nat
  alignment : Nat
  mustBeDedicated : Bool
deriving DecidableEq, Repr

/-- Modelled from the spec: `BufferVal` (not under `src/`) wraps a backend
buffer plus a "bound to memory" boolean; the boolean is the third
constructor argument at the `Allocate<BufferVal>` sites in `DeviceVal.cpp`
(`false` for `CreateBuffer`, `true` for `AllocateBuffer`). -/
structure BufferState where
  boundToMemory : Bool
deriving DecidableEq, Repr

/-- Modelled from the spec: `TextureVal` (not under `src/`), same shape as
`BufferState`. -/
structure TextureState where
  boundToMemory : Bool
deriving DecidableEq, Repr

/-- Modelled from the spec: `AccelerationStructureVal` (not under `src/`)
wraps a backend object, a bound flag, and the `MemoryDesc` recorded at
creation time (`DeviceVal::CreateAccelerationStructure` queries
`GetAccelerationStructureMemoryDesc` on success and stores it). -/
structure AccelerationStructureState where
  boundToMemory : Bool
  memoryDesc : MemReq
deriving DecidableEq, Repr

/-- Modelled from the spec: `MemoryVal` (not under `src/`): declared size
(0 = unknown), location class (`none` models the
`MemoryLocation::MAX_NUM` sentinel used for memory imported through a
wrapper extension), and the sets of resources currently bound to it. -/
structure MemoryState where
  size : Nat
  memoryLocation : Option Nat
  boundBuffers : List Nat
  boundTextures : List Nat
  boundAccelerationStructures : List Nat
deriving DecidableEq, Repr

/-- Validation-layer state: the live proxies, addressed by opaque ids
(modelling proxy addresses; `none` = no live proxy at that id). -/
structure DeviceState where
  buffers : Nat → Option BufferState
  textures : Nat → Option TextureState
  accelerationStructures : Nat → Option AccelerationStructureState
  memories : Nat → Option MemoryState

/-- 64-bit wrap-around: `uint64_t` addition in the source truncates mod 2^64. -/
def wrap64 (n : Nat) : Nat := n % 18446744073709551616

/-- `nri::BufferMemoryBindingDesc`: `none` models a NULL pointer. -/
structure BufferMemoryBindingDesc where
  buffer : Option Nat
  memory : Option Nat
  offset : Nat
deriving DecidableEq, Repr

/-- `nri::TextureMemoryBindingDesc`: `none` models a NULL pointer. -/
structure TextureMemoryBindingDesc where
  texture : Option Nat
  memory : Option Nat
  offset : Nat
deriving DecidableEq, Repr

/-- `nri::AccelerationStructureMemoryBindingDesc`.  The source performs no
NULL checks on these two pointers (it dereferences them directly), so they
are modelled as plain ids. -/
structure AccelerationStructureMemoryBindingDesc where
  accelerationStructure : Nat
  memory : Nat
  offset : Nat
deriving DecidableEq, Repr

/-- Per-entry validation of `DeviceVal::BindBufferMemory` (the body of the
first loop): NULL checks, the already-bound check, the skip for memory
whose location is the `MAX_NUM` sentinel, and the dedicated / alignment /
offset / size checks against the backend-reported `MemoryDesc`
(`getBufferMemoryDesc` models `CoreInterface::GetBufferMemoryDesc`, keyed
by the buffer and the memory location).  Every failed check produces
`Result::INVALID_ARGUMENT` in the source; a dereference of a dangling
proxy is a client error in the source and is modelled as a failure. -/
def validateBufferBinding (s : DeviceState) (getBufferMemoryDesc : Nat → Nat → MemReq)
    (e : BufferMemoryBindingDesc) : Bool :=
  match e.buffer, e.memory with
  | some b, some m =>
    match s.buffers b, s.memories m with
    | some buf, some mem =>
      !buf.boundToMemory &&
      (match mem.memoryLocation with
       | none => true
       | some loc =>
         let md := getBufferMemoryDesc b loc
         (!md.mustBeDedicated || e.offset == 0) &&
         md.alignment != 0 &&
         e.offset % md.alignment == 0 &&
         (mem.size == 0 || wrap64 (e.offset + md.size) ≤ mem.size))
    | _, _ => false
  | _, _ => false

/-- Per-entry validation of `DeviceVal::BindTextureMemory`; identical to the
buffer version except that the requirement query is
`CoreInterface::GetTextureMemoryDesc`. -/
def validateTextureBinding (s : DeviceState) (getTextureMemoryDesc : Nat → Nat → MemReq)
    (e : TextureMemoryBindingDesc) : Bool :=
  match e.texture, e.memory with
  | some t, some m =>
    match s.textures t, s.memories m with
    | some tex, some mem =>
      !tex.boundToMemory &&
      (match mem.memoryLocation with
       | none => true
       | some loc =>
         let md := getTextureMemoryDesc t loc
         (!md.mustBeDedicated || e.offset == 0) &&
         md.alignment != 0 &&
         e.offset % md.alignment == 0 &&
         (mem.size == 0 || wrap64 (e.offset + md.size) ≤ mem.size))
    | _, _ => false
  | _, _ => false

/-- Per-entry validation of `DeviceVal::BindAccelerationStructureMemory`:
no NULL checks, no skip for the imported-memory sentinel; the requirement
checks always run, against the `MemoryDesc` recorded in the proxy at
creation time (`accelerationStructure.GetMemoryDesc()`). -/
def validateAccelerationStructureBinding (s : DeviceState)
    (e : AccelerationStructureMemoryBindingDesc) : Bool :=
  match s.memories e.memory, s.accelerationStructures e.accelerationStructure with
  | some mem, some accel =>
    let md := accel.memoryDesc
    !accel.boundToMemory &&
    (!md.mustBeDedicated || e.offset == 0) &&
    md.alignment != 0 &&
    e.offset % md.alignment == 0 &&
    (mem.size == 0 || wrap64 (e.offset + md.size) ≤ mem.size)
  | _, _ => false

/-- The validation loop of `BindBufferMemory`: the source returns
`INVALID_ARGUMENT` at the first failing entry; all failures being equal and
state-free, the loop is the conjunction of the per-entry checks. -/
def validateBufferEntries (s : DeviceState) (q : Nat → Nat → MemReq) :
    List BufferMemoryBindingDesc → Bool
  | [] => true
  | e :: rest => validateBufferBinding s q e && validateBufferEntries s q rest

/-- The validation loop of `BindTextureMemory`. -/
def validateTextureEntries (s : DeviceState) (q : Nat → Nat → MemReq) :
    List TextureMemoryBindingDesc → Bool
  | [] => true
  | e :: rest => validateTextureBinding s q e && validateTextureEntries s q rest

/-- The validation loop of `BindAccelerationStructureMemory`. -/
def validateAccelerationStructureEntries (s : DeviceState) :
    List AccelerationStructureMemoryBindingDesc → Bool
  | [] => true
  | e :: rest =>
    validateAccelerationStructureBinding s e && validateAccelerationStructureEntries s rest

/-- Modelled from the spec: `MemoryVal::BindBuffer` (not under `src/`) adds
the buffer to the memory's bound-set and sets the buffer's bound flag. -/
def bindBufferToMemory (s : DeviceState) (b m : Nat) : DeviceState :=
  { s with
    buffers := fun i => if i = b then (s.buffers i).map (fun _ => ⟨true⟩) else s.buffers i
    memories := fun i =>
      if i = m then (s.memories i).map (fun ms => { ms with boundBuffers := b :: ms.boundBuffers })
      else s.memories i }

/-- Modelled from the spec: `MemoryVal::BindTexture` (not under `src/`). -/
def bindTextureToMemory (s : DeviceState) (t m : Nat) : DeviceState :=
  { s with
    textures := fun i => if i = t then (s.textures i).map (fun _ => ⟨true⟩) else s.textures i
    memories := fun i =>
      if i = m then (s.memories i).map (fun ms => { ms with boundTextures := t :: ms.boundTextures })
      else s.memories i }

/-- Modelled from the spec: `MemoryVal::BindAccelerationStructure` (not under `src/`). -/
def bindAccelerationStructureToMemory (s : DeviceState) (a m : Nat) : DeviceState :=
  { s with
    accelerationStructures := fun i =>
      if i = a then (s.accelerationStructures i).map (fun st => { st with boundToMemory := true })
      else s.accelerationStructures i
    memories := fun i =>
      if i = m then
        (s.memories i).map (fun ms =>
          { ms with boundAccelerationStructures := a :: ms.boundAccelerationStructures })
      else s.memories i }

/-- The post-success loop of `BindBufferMemory`: `memory.BindBuffer(buffer)`
for every entry (pointers are non-null here, validation has passed). -/
def applyBufferBindings (s : DeviceState) : List BufferMemoryBindingDesc → DeviceState
  | [] => s
  | e :: rest =>
    match e.buffer, e.memory with
    | some b, some m => applyBufferBindings (bindBufferToMemory s b m) rest
    | _, _ => applyBufferBindings s rest

/-- The post-success loop of `BindTextureMemory`. -/
def applyTextureBindings (s : DeviceState) : List TextureMemoryBindingDesc → DeviceState
  | [] => s
  | e :: rest =>
    match e.texture, e.memory with
    | some t, some m => applyTextureBindings (bindTextureToMemory s t m) rest
    | _, _ => applyTextureBindings s rest

/-- The post-success loop of `BindAccelerationStructureMemory`. -/
def applyAccelerationStructureBindings (s : DeviceState) :
    List AccelerationStructureMemoryBindingDesc → DeviceState
  | [] => s
  | e :: rest =>
    applyAccelerationStructureBindings
      (bindAccelerationStructureToMemory s e.accelerationStructure e.memory) rest

/-- Outcome of a batched bind call: result code, resulting validation-layer
state, and whether the backend batched entry point was invoked. -/
structure BindOutcome where
  result : Result
  state : DeviceState
  backendCalled : Bool

/-- `DeviceVal::BindBufferMemory`: validate every entry (returning
`INVALID_ARGUMENT` with no state change and no backend call at the first
failure), then forward the whole batch to the backend once
(`backendResult` is the oracle for that single call), and update the
bound flags / bound-sets for every entry only on `SUCCESS`. -/
def BindBufferMemory (s : DeviceState) (q : Nat → Nat → MemReq) (backendResult : Result)
    (entries : List BufferMemoryBindingDesc) : BindOutcome :=
  if validateBufferEntries s q entries then
    ⟨backendResult,
     if backendResult = Result.SUCCESS then applyBufferBindings s entries else s,
     true⟩
  else ⟨Result.INVALID_ARGUMENT, s, false⟩

/-- `DeviceVal::BindTextureMemory`. -/
def BindTextureMemory (s : DeviceState) (q : Nat → Nat → MemReq) (backendResult : Result)
    (entries : List TextureMemoryBindingDesc) : BindOutcome :=
  if validateTextureEntries s q entries then
    ⟨backendResult,
     if backendResult = Result.SUCCESS then applyTextureBindings s entries else s,
     true⟩
  else ⟨Result.INVALID_ARGUMENT, s, false⟩

/-- `DeviceVal::BindAccelerationStructureMemory`. -/
def BindAccelerationStructureMemory (s : DeviceState) (backendResult : Result)
    (entries : List AccelerationStructureMemoryBindingDesc) : BindOutcome :=
  if validateAccelerationStructureEntries s entries then
    ⟨backendResult,
     if backendResult = Result.SUCCESS then applyAccelerationStructureBindings s entries else s,
     true⟩
  else ⟨Result.INVALID_ARGUMENT, s, false⟩

/-- Modelled from the spec: the `nri::StageBits` enumeration lives in the
public header, which is not part of the validation source.  The three
mutually exclusive pipeline families and the individual stage bits are
kept as parameters; `allStages` models the `StageBits::ALL` special value
used for descriptor-range visibility. -/
structure StageConsts where
  graphicsShaders : Nat
  computeShader : Nat
  rayTracingShaders : Nat
  vertexShader : Nat
  meshControlShader : Nat
  allStages : Nat
deriving DecidableEq, Repr

/-- The popcount loop inside `IsShaderStageValid`
(`while (x) { n += x & 1; x >>= 1; }`). -/
def popCount (x : Nat) : Nat :=
  if x = 0 then 0 else x % 2 + popCount (x / 2)
decreasing_by exact Nat.div_lt_self (Nat.pos_of_ne_zero (by assumption)) (by omega)

/-- `IsShaderStageValid` from `DeviceVal.cpp`: the masked stage bits must
have popcount exactly one, and the full (unmasked) stage bits must be
disjoint from the running `uniqueShaderStages`, which is OR-updated.
Returns the check outcome together with the updated accumulator. -/
def isShaderStageValid (shaderStages uniqueShaderStages allowedStages : Nat) : Bool × Nat :=
  let n := popCount (shaderStages &&& allowedStages)
  let isUnique := uniqueShaderStages &&& shaderStages == 0
  (n == 1 && isUnique, uniqueShaderStages ||| shaderStages)

/-- `nri::ShaderDesc` (the fields the validation reads): stage bits,
whether `bytecode` is NULL, and `size`. -/
structure ShaderDesc where
  stage : Nat
  bytecodeNull : Bool
  size : Nat
deriving DecidableEq, Repr

/-- The shader loop of `DeviceVal::CreatePipeline(GraphicsPipelineDesc)`:
per shader, track whether a `VERTEX_SHADER` or `MESH_CONTROL_SHADER` entry
was seen, require the stage to intersect the layout's stage mask, require
non-NULL bytecode and nonzero size, and require `IsShaderStageValid`
against `StageBits::GRAPHICS_SHADERS`; after the loop, require the entry
point.  Any failure is `INVALID_ARGUMENT`. -/
def validateGraphicsShaders (c : StageConsts) (layoutStages : Nat) :
    List ShaderDesc → Nat → Bool → Bool
  | [], _, hasEntryPoint => hasEntryPoint
  | sh :: rest, uniqueShaderStages, hasEntryPoint =>
    let hasEntryPoint :=
      hasEntryPoint || sh.stage == c.vertexShader || sh.stage == c.meshControlShader
    if sh.stage &&& layoutStages == 0 then false
    else if sh.bytecodeNull then false
    else if sh.size == 0 then false
    else
      match isShaderStageValid sh.stage uniqueShaderStages c.graphicsShaders with
      | (ok, unique) =>
        if ok then validateGraphicsShaders c layoutStages rest unique hasEntryPoint else false

/-- The shader-stage checks of graphics-pipeline creation, with the
accumulators at their initial values (`uniqueShaderStages = 0`,
`hasEntryPoint = false`). -/
def graphicsShaderChecks (c : StageConsts) (layoutStages : Nat) (shaders : List ShaderDesc) : Bool :=
  validateGraphicsShaders c layoutStages shaders 0 false

/-- `nri::DescriptorRangeDesc` (the fields the validation reads);
`descriptorTypeValid` models `descriptorType < DescriptorType::MAX_NUM`. -/
structure DescriptorRangeDesc where
  isDescriptorNumVariable : Bool
  isArray : Bool
  descriptorNum : Nat
  descriptorTypeValid : Bool
  shaderStages : Nat
deriving DecidableEq, Repr

/-- `nri::DescriptorSetDesc` (the fields the validation reads). -/
structure DescriptorSetDesc where
  ranges : List DescriptorRangeDesc
deriving DecidableEq, Repr

/-- `nri::PipelineLayoutDesc` (the fields the validation reads). -/
structure PipelineLayoutDesc where
  shaderStages : Nat
  descriptorSets : List DescriptorSetDesc
deriving DecidableEq, Repr

/-- The stage-family checks at the top of `DeviceVal::CreatePipelineLayout`:
`shaderStages` must not be `NONE` (0), must intersect at least one of the
three families, and must not intersect more than one. -/
def createPipelineLayoutStageCheck (c : StageConsts) (shaderStages : Nat) : Bool :=
  let isGraphics := shaderStages &&& c.graphicsShaders != 0
  let isCompute := shaderStages &&& c.computeShader != 0
  let isRayTracing := shaderStages &&& c.rayTracingShaders != 0
  let supportedTypes : Nat :=
    (if isGraphics then 1 else 0) + (if isCompute then 1 else 0) + (if isRayTracing then 1 else 0)
  shaderStages != 0 && decide (supportedTypes > 0) && supportedTypes == 1

/-- The per-range checks of `CreatePipelineLayout`: a variable-length range
must be an array; `descriptorNum` nonzero; `descriptorType` in range;
range visibility, unless `StageBits::ALL`, must be a subset of the
layout's stage mask. -/
def validateDescriptorRange (c : StageConsts) (layoutStages : Nat) (r : DescriptorRangeDesc) : Bool :=
  (!r.isDescriptorNumVariable || r.isArray) &&
  r.descriptorNum > 0 &&
  r.descriptorTypeValid &&
  (r.shaderStages == c.allStages || (r.shaderStages &&& layoutStages) == r.shaderStages)

/-- `DeviceVal::CreatePipelineLayout`: stage-family checks, per-range checks,
then the backend call; the out handle is written only on `SUCCESS`
(`none` models "the caller's variable is left unmodified"). -/
def CreatePipelineLayout (c : StageConsts) (desc : PipelineLayoutDesc)
    (backendResult : Result) (backendHandle : Nat) : Result × Option Nat :=
  if !createPipelineLayoutStageCheck c desc.shaderStages then (Result.INVALID_ARGUMENT, none)
  else if !(desc.descriptorSets.all fun ds =>
      ds.ranges.all (validateDescriptorRange c desc.shaderStages)) then
    (Result.INVALID_ARGUMENT, none)
  else
    (backendResult, if backendResult = Result.SUCCESS then some backendHandle else none)

/-- `GetMaxMipNum` from `DeviceVal.cpp`: starting from `mipNum = 1`, halve
every dimension still above 1 until all reach 1, counting iterations.  The
floor is 1×1×1; there is no configurable minimum. -/
def GetMaxMipNum (w h d : Nat) : Nat :=
  if w > 1 ∨ h > 1 ∨ d > 1 then
    1 + GetMaxMipNum (if w > 1 then w / 2 else w) (if h > 1 then h / 2 else h)
      (if d > 1 then d / 2 else d)
  else 1
termination_by w + h + d
decreasing_by split <;> split <;> split <;> omega

/-- `nri::TextureDesc` (the fields the validation reads);
`formatValid` models `format > Format::UNKNOWN && format < Format::MAX_NUM`. -/
structure TextureDesc where
  formatValid : Bool
  width : Nat
  height : Nat
  depth : Nat
  mipNum : Nat
  layerNum : Nat
  sampleNum : Nat
deriving DecidableEq, Repr

/-- `DeviceVal::CreateTexture`: the descriptor checks in source order, then
the backend call; the out handle is written only on `SUCCESS`. -/
def CreateTexture (desc : TextureDesc) (backendResult : Result) (backendHandle : Nat) :
    Result × Option Nat :=
  let maxMipNum := GetMaxMipNum desc.width desc.height desc.depth
  if !desc.formatValid then (Result.INVALID_ARGUMENT, none)
  else if desc.width == 0 then (Result.INVALID_ARGUMENT, none)
  else if desc.height == 0 then (Result.INVALID_ARGUMENT, none)
  else if desc.depth == 0 then (Result.INVALID_ARGUMENT, none)
  else if desc.mipNum == 0 then (Result.INVALID_ARGUMENT, none)
  else if !(desc.mipNum ≤ maxMipNum) then (Result.INVALID_ARGUMENT, none)
  else if desc.layerNum == 0 then (Result.INVALID_ARGUMENT, none)
  else if desc.sampleNum == 0 then (Result.INVALID_ARGUMENT, none)
  else (backendResult, if backendResult = Result.SUCCESS then some backendHandle else none)

/-- `nri::Texture2DViewDesc` (the fields the validation reads);
`textureNull` models a NULL parent pointer, `viewTypeValid` and
`formatValid` the enum-range checks. -/
structure Texture2DViewDesc where
  textureNull : Bool
  viewTypeValid : Bool
  formatValid : Bool
  mipOffset : Nat
  mipNum : Nat
  layerOffset : Nat
  layerNum : Nat
deriving DecidableEq, Repr

/-- The validation chain of `DeviceVal::CreateDescriptor(Texture2DViewDesc)`
against the parent texture's recorded descriptor, in source order.  This
is the only place the sub-range is checked; no later operation in the
layer re-validates it. -/
def validateTexture2DView (parent : TextureDesc) (v : Texture2DViewDesc) : Bool :=
  !v.textureNull &&
  v.viewTypeValid &&
  v.formatValid &&
  decide (v.mipOffset < parent.mipNum) &&
  decide (v.mipOffset + v.mipNum ≤ parent.mipNum) &&
  decide (v.layerOffset < parent.layerNum) &&
  decide (v.layerOffset + v.layerNum ≤ parent.layerNum)

/-- `nri::BufferDesc` (the field the validation reads). -/
structure BufferDesc where
  size : Nat
deriving DecidableEq, Repr

/-- `DeviceVal::CreateBuffer`: nonzero size, backend call, handle written
only on `SUCCESS`. -/
def CreateBuffer (desc : BufferDesc) (backendResult : Result) (backendHandle : Nat) :
    Result × Option Nat :=
  if desc.size == 0 then (Result.INVALID_ARGUMENT, none)
  else (backendResult, if backendResult = Result.SUCCESS then some backendHandle else none)

/-- `nri::AllocateMemoryDesc` (the fields the validation reads).
`priorityInRange` models the outcome of the floating-point check
`priority >= -1.0f && priority <= 1.0f` (floating point itself is not
modelled; only the check's boolean outcome matters to the control flow). -/
structure AllocateMemoryDesc where
  size : Nat
  priorityInRange : Bool
  type : Nat
deriving DecidableEq, Repr

/-- `DeviceVal::AllocateMemory`: nonzero size, priority range check,
memory-type lookup in the registered map (`FAILURE` when absent), backend
call, handle written only on `SUCCESS`. -/
def AllocateMemory (memoryTypeMap : Nat → Option Nat) (desc : AllocateMemoryDesc)
    (backendResult : Result) (backendHandle : Nat) : Result × Option Nat :=
  if desc.size == 0 then (Result.INVALID_ARGUMENT, none)
  else if !desc.priorityInRange then (Result.INVALID_ARGUMENT, none)
  else
    match memoryTypeMap desc.type with
    | none => (Result.FAILURE, none)
    | some _ =>
      (backendResult, if backendResult = Result.SUCCESS then some backendHandle else none)

/-- Modelled from the spec: `MemoryVal::HasBoundResources` (not under
`src/`): whether any resource remains in the memory's bound-sets. -/
def hasBoundResources (ms : MemoryState) : Bool :=
  !ms.boundBuffers.isEmpty || !ms.boundTextures.isEmpty ||
  !ms.boundAccelerationStructures.isEmpty

/-- Outcome of `DeviceVal::FreeMemory`: resulting state, whether the backend
`FreeMemory` was called, whether the proxy was destroyed, and whether an
error was reported through the diagnostic callback. -/
structure FreeMemoryOutcome where
  state : DeviceState
  backendFreeCalled : Bool
  proxyDestroyed : Bool
  errorReported : Bool

/-- `DeviceVal::FreeMemory`: refuse (report an error, no backend call, no
proxy destruction, state unchanged) while the bound-set is non-empty;
otherwise call the backend free and destroy the proxy.  Passing a dangling
handle is a client error in the source (the function takes `Memory&`); it
is modelled as a no-op. -/
def FreeMemory (s : DeviceState) (m : Nat) : FreeMemoryOutcome :=
  match s.memories m with
  | some ms =>
    if hasBoundResources ms then ⟨s, false, false, true⟩
    else ⟨{ s with memories := fun i => if i = m then none else s.memories i }, true, true, false⟩
  | none => ⟨s, false, false, false⟩

/-- Modelled from the spec: destroying a bound resource unbinds it — the
proxy destructor removes the resource from its memory's bound-set
(`MemoryVal`/`BufferVal` are not under `src/`; spec §4.2: "the caller must
unbind by destroying bound resources first"). -/
def destroyBufferProxy (s : DeviceState) (b : Nat) : DeviceState :=
  { s with
    buffers := fun i => if i = b then none else s.buffers i
    memories := fun i =>
      (s.memories i).map fun ms =>
        { ms with boundBuffers := ms.boundBuffers.filter (fun x => x ≠ b) } }

/-- Modelled from the spec: texture analogue of `destroyBufferProxy`. -/
def destroyTextureProxy (s : DeviceState) (t : Nat) : DeviceState :=
  { s with
    textures := fun i => if i = t then none else s.textures i
    memories := fun i =>
      (s.memories i).map fun ms =>
        { ms with boundTextures := ms.boundTextures.filter (fun x => x ≠ t) } }

/-- Modelled from the spec: acceleration-structure analogue of
`destroyBufferProxy`. -/
def destroyAccelerationStructureProxy (s : DeviceState) (a : Nat) : DeviceState :=
  { s with
    accelerationStructures := fun i => if i = a then none else s.accelerationStructures i
    memories := fun i =>
      (s.memories i).map fun ms =>
        { ms with
          boundAccelerationStructures :=
            ms.boundAccelerationStructures.filter (fun x => x ≠ a) } }

/-- `BufferVal::SetBoundToMemory` (modelled from the spec; used by the
success path of `DeviceVal::AllocateAndBindMemory`). -/
def setBufferBound (s : DeviceState) (b : Nat) : DeviceState :=
  { s with buffers := fun i => if i = b then (s.buffers i).map (fun _ => ⟨true⟩) else s.buffers i }

/-- `TextureVal::SetBoundToMemory` (modelled from the spec). -/
def setTextureBound (s : DeviceState) (t : Nat) : DeviceState :=
  { s with textures := fun i => if i = t then (s.textures i).map (fun _ => ⟨true⟩) else s.textures i }

/-- The memory-proxy allocations on the success path of
`AllocateAndBindMemory`: each backend allocation is wrapped in a
`MemoryVal` with size 0 and the group's memory location; a backend
allocation is a fresh object, so an id already in use is left alone. -/
def addMemoryProxies (loc : Nat) (s : DeviceState) : List Nat → DeviceState
  | [] => s
  | id :: rest =>
    addMemoryProxies loc
      { s with
        memories := fun i =>
          if i = id then
            match s.memories i with
            | some ms => some ms
            | none => some ⟨0, some loc, [], [], []⟩
          else s.memories i }
      rest

/-- The operations of the validation layer that touch the tracked bound
flags, bound-sets and the lifecycle of the resources carrying them, each
op carrying the backend's answer for the single backend call the operation
makes.  This covers the portable creation entry points, the
resource-allocator variants, the wrapper-import creation entry points that
accept a pre-existing native VK/D3D11/D3D12 handle
(`CreateBuffer(BufferVKDesc/BufferD3D11Desc/BufferD3D12Desc)`,
`CreateTexture(...)`, `CreateAccelerationStructure(VK/D3D12)`, and
`CreateMemory(MemoryVKDesc/MemoryD3D12Desc)`, which register the resource
proxy with its bound flag already true, respectively the memory proxy with
the `MAX_NUM` location sentinel), the three batched binds,
`AllocateAndBindMemory`, `FreeMemory` and the destroy entry points.  The
remaining wrapper creations (command buffers, descriptor pools, pipelines,
query pools, queues) create proxies with no binding state and are out of
scope.  Creation ops carry the id at which the proxy is registered; a
fresh backend object cannot alias a live proxy, so creation at a live id
is modelled as a no-op. -/
inductive Op where
  | createBuffer (id : Nat) (backendResult : Result)
  | allocateBuffer (id : Nat) (backendResult : Result)
  | createTexture (id : Nat) (backendResult : Result)
  | allocateTexture (id : Nat) (backendResult : Result)
  | createAccelerationStructure (id : Nat) (memoryDesc : MemReq) (backendResult : Result)
  | allocateAccelerationStructure (id : Nat) (memoryDesc : MemReq) (backendResult : Result)
  | allocateMemory (id : Nat) (size : Nat) (memoryLocation : Option Nat) (backendResult : Result)
  | createBufferFromNativeHandle (id : Nat) (backendResult : Result)
  | createTextureFromNativeHandle (id : Nat) (backendResult : Result)
  | createAccelerationStructureFromNativeHandle (id : Nat) (backendResult : Result)
  | createMemoryFromNativeHandle (id : Nat) (size : Nat) (backendResult : Result)
  | bindBufferMemoryOp (q : Nat → Nat → MemReq) (entries : List BufferMemoryBindingDesc)
      (backendResult : Result)
  | bindTextureMemoryOp (q : Nat → Nat → MemReq) (entries : List TextureMemoryBindingDesc)
      (backendResult : Result)
  | bindAccelerationStructureMemoryOp (entries : List AccelerationStructureMemoryBindingDesc)
      (backendResult : Result)
  | allocateAndBindMemoryOp (bufferIds textureIds memoryIds : List Nat) (memoryLocation : Nat)
      (backendResult : Result)
  | freeMemoryOp (id : Nat)
  | destroyBuffer (id : Nat)
  | destroyTexture (id : Nat)
  | destroyAccelerationStructure (id : Nat)

/-- One call into the device facade.  Creation entry points register a
proxy only when the backend returned `SUCCESS` (`CreateBuffer` /
`CreateTexture` / `CreateAccelerationStructure` register the proxy
unbound; the resource-allocator variants `AllocateBuffer` /
`AllocateTexture` / `AllocateAccelerationStructure` register it already
bound, the combined allocate+create having bound it).
The wrapper-import creations (`...FromNativeHandle`, modelling the
VK/D3D11/D3D12 overloads, which are identical in tracked effect) register
the proxy already bound — respectively, for memory, with size as given and
the unknown-location sentinel — only when the backend wrapper call
returned `SUCCESS`.  `AllocateAndBindMemory` validates (all listed
resources non-null / live), calls the backend once, and on `SUCCESS` marks
every listed resource bound and wraps the returned allocations. -/
def step (s : DeviceState) : Op → DeviceState
  | .createBuffer id r =>
    if r = Result.SUCCESS ∧ s.buffers id = none then
      { s with buffers := fun i => if i = id then some ⟨false⟩ else s.buffers i }
    else s
  | .allocateBuffer id r =>
    if r = Result.SUCCESS ∧ s.buffers id = none then
      { s with buffers := fun i => if i = id then some ⟨true⟩ else s.buffers i }
    else s
  | .createTexture id r =>
    if r = Result.SUCCESS ∧ s.textures id = none then
      { s with textures := fun i => if i = id then some ⟨false⟩ else s.textures i }
    else s
  | .allocateTexture id r =>
    if r = Result.SUCCESS ∧ s.textures id = none then
      { s with textures := fun i => if i = id then some ⟨true⟩ else s.textures i }
    else s
  | .createAccelerationStructure id md r =>
    if r = Result.SUCCESS ∧ s.accelerationStructures id = none then
      { s with
        accelerationStructures := fun i =>
          if i = id then some ⟨false, md⟩ else s.accelerationStructures i }
    else s
  | .allocateAccelerationStructure id md r =>
    if r = Result.SUCCESS ∧ s.accelerationStructures id = none then
      { s with
        accelerationStructures := fun i =>
          if i = id then some ⟨true, md⟩ else s.accelerationStructures i }
    else s
  | .allocateMemory id size loc r =>
    if r = Result.SUCCESS ∧ s.memories id = none then
      { s with memories := fun i => if i = id then some ⟨size, loc, [], [], []⟩ else s.memories i }
    else s
  | .createBufferFromNativeHandle id r =>
    if r = Result.SUCCESS ∧ s.buffers id = none then
      { s with buffers := fun i => if i = id then some ⟨true⟩ else s.buffers i }
    else s
  | .createTextureFromNativeHandle id r =>
    if r = Result.SUCCESS ∧ s.textures id = none then
      { s with textures := fun i => if i = id then some ⟨true⟩ else s.textures i }
    else s
  | .createAccelerationStructureFromNativeHandle id r =>
    if r = Result.SUCCESS ∧ s.accelerationStructures id = none then
      { s with
        accelerationStructures := fun i =>
          if i = id then some ⟨true, ⟨0, 0, false⟩⟩ else s.accelerationStructures i }
    else s
  | .createMemoryFromNativeHandle id size r =>
    if r = Result.SUCCESS ∧ s.memories id = none then
      { s with memories := fun i => if i = id then some ⟨size, none, [], [], []⟩ else s.memories i }
    else s
  | .bindBufferMemoryOp q entries r => (BindBufferMemory s q r entries).state
  | .bindTextureMemoryOp q entries r => (BindTextureMemory s q r entries).state
  | .bindAccelerationStructureMemoryOp entries r =>
    (BindAccelerationStructureMemory s r entries).state
  | .allocateAndBindMemoryOp bufferIds textureIds memoryIds loc r =>
    if r = Result.SUCCESS &&
        bufferIds.all (fun b => (s.buffers b).isSome) &&
        textureIds.all (fun t => (s.textures t).isSome) then
      addMemoryProxies loc
        (textureIds.foldl setTextureBound (bufferIds.foldl setBufferBound s)) memoryIds
    else s
  | .freeMemoryOp id => (FreeMemory s id).state
  | .destroyBuffer id => destroyBufferProxy s id
  | .destroyTexture id => destroyTextureProxy s id
  | .destroyAccelerationStructure id => destroyAccelerationStructureProxy s id

/-- Run a list of operations in order. -/
def runOps (s : DeviceState) : List Op → DeviceState
  | [] => s
  | op :: rest => runOps (step s op) rest

/-- The bound flag of a buffer slot (`false` when no live proxy). -/
def bufferBoundFlag : Option BufferState → Bool
  | some bs => bs.boundToMemory
  | none => false

/-- The bound flag of a texture slot. -/
def textureBoundFlag : Option TextureState → Bool
  | some ts => ts.boundToMemory
  | none => false

/-- The bound flag of an acceleration-structure slot. -/
def accelBoundFlag : Option AccelerationStructureState → Bool
  | some st => st.boundToMemory
  | none => false

/-- The steps whose backend call is a bind or allocate-and-bind that
returned `SUCCESS`; these are the only steps allowed to raise a bound
flag. -/
def isSuccessfulBindStep : Op → Bool
  | .allocateBuffer _ r => r = Result.SUCCESS
  | .allocateTexture _ r => r = Result.SUCCESS
  | .allocateAccelerationStructure _ _ r => r = Result.SUCCESS
  | .bindBufferMemoryOp _ _ r => r = Result.SUCCESS
  | .bindTextureMemoryOp _ _ r => r = Result.SUCCESS
  | .bindAccelerationStructureMemoryOp _ r => r = Result.SUCCESS
  | .allocateAndBindMemoryOp _ _ _ _ r => r = Result.SUCCESS
  | _ => false

/-- The steps whose backend call is a wrapper-import creation of a
buffer / texture / acceleration structure from a pre-existing native
handle that returned `SUCCESS`: these register the proxy with its bound
flag already true, although no bind or allocate-and-bind call was made. -/
def isSuccessfulWrapperImportStep : Op → Bool
  | .createBufferFromNativeHandle _ r => r = Result.SUCCESS
  | .createTextureFromNativeHandle _ r => r = Result.SUCCESS
  | .createAccelerationStructureFromNativeHandle _ r => r = Result.SUCCESS
  | _ => false

/-- The buffer at `b` is live in the starting state and stays live after
every step of the trace (the buffer is not destroyed: it is the same
resource, for the whole list of operations). -/
def bufferAliveAlong (b : Nat) : DeviceState → List Op → Bool
  | s, [] => (s.buffers b).isSome
  | s, op :: rest => (s.buffers b).isSome && bufferAliveAlong b (step s op) rest

/-- Texture analogue of `bufferAliveAlong`. -/
def textureAliveAlong (t : Nat) : DeviceState → List Op → Bool
  | s, [] => (s.textures t).isSome
  | s, op :: rest => (s.textures t).isSome && textureAliveAlong t (step s op) rest

/-- Acceleration-structure analogue of `bufferAliveAlong`. -/
def accelAliveAlong (a : Nat) : DeviceState → List Op → Bool
  | s, [] => (s.accelerationStructures a).isSome
  | s, op :: rest => (s.accelerationStructures a).isSome && accelAliveAlong a (step s op) rest

/-- The number of pipeline families (graphics / compute / ray-tracing)
whose mask intersects `stages` — the `supportedTypes` computation at the
top of `CreatePipelineLayout`, as a standalone function. -/
def familyCount (c : StageConsts) (stages : Nat) : Nat :=
  (if stages &&& c.graphicsShaders ≠ 0 then 1 else 0) +
  (if stages &&& c.computeShader ≠ 0 then 1 else 0) +
  (if stages &&& c.rayTracingShaders ≠ 0 then 1 else 0)

/-- The per-shader conditions checked inside the graphics-pipeline shader
loop (everything except uniqueness and the entry-point requirement). -/
def goodGraphicsShader (c : StageConsts) (layoutStages : Nat) (sh : ShaderDesc) : Prop :=
  sh.stage &&& layoutStages ≠ 0 ∧ sh.bytecodeNull = false ∧ sh.size ≠ 0 ∧
  popCount (sh.stage &&& c.graphicsShaders) = 1

/-- A shader whose stage equals `VERTEX_SHADER` or `MESH_CONTROL_SHADER`
(the `hasEntryPoint` test uses equality, not a bit test). -/
def isEntryPointStage (c : StageConsts) (sh : ShaderDesc) : Prop :=
  sh.stage = c.vertexShader ∨ sh.stage = c.meshControlShader

/-- The invariant traced by the `uniqueShaderStages` accumulator: every
shader's (full, unmasked) stage bits are disjoint from the accumulator,
which grows by OR along the list. -/
def stagesDisjointFrom (u : Nat) : List ShaderDesc → Prop
  | [] => True
  | sh :: rest => u &&& sh.stage = 0 ∧ stagesDisjointFrom (u ||| sh.stage) rest

/-! Concrete inputs used by witnesses and counterexamples. -/

/-- An empty validation-layer state. -/
def emptyState : DeviceState := ⟨fun _ => none, fun _ => none, fun _ => none, fun _ => none⟩

/-- A memory of size 100 with known location 0. -/
def memKnown100 : MemoryState := ⟨100, some 0, [], [], []⟩

/-- State for the C2 counterexample: one unbound buffer (id 0) and one
memory (id 0) of size 100 with known location. -/
def sC2 : DeviceState :=
  ⟨fun i => if i = 0 then some ⟨false⟩ else none, fun _ => none, fun _ => none,
   fun i => if i = 0 then some memKnown100 else none⟩

/-- Backend requirement oracle for the C2 counterexample: size 2,
alignment 1, not dedicated. -/
def qC2 : Nat → Nat → MemReq := fun _ _ => ⟨2, 1, false⟩

/-- Binding entry for the C2 counterexample: offset `2^64 - 1`, at which the
source's `uint64_t` sum `offset + memoryDesc.size` wraps around to 1. -/
def eC2 : BufferMemoryBindingDesc := ⟨some 0, some 0, 18446744073709551615⟩

/-- A memory with the unknown/imported location sentinel. -/
def memImported : MemoryState := ⟨100, none, [], [], []⟩

/-- State for the C3 counterexample: an unbound acceleration structure
(id 0) whose recorded `MemoryDesc` has alignment 0, an unbound buffer
(id 0), and an imported memory (id 0, sentinel location). -/
def sC3 : DeviceState :=
  ⟨fun i => if i = 0 then some ⟨false⟩ else none, fun _ => none,
   fun i => if i = 0 then some ⟨false, ⟨64, 0, false⟩⟩ else none,
   fun i => if i = 0 then some memImported else none⟩

/-- Acceleration-structure binding entry for the C3 counterexample. -/
def eC3 : AccelerationStructureMemoryBindingDesc := ⟨0, 0, 0⟩

/-- Buffer binding entry for the C3 counterexample (same memory, same
offset): the buffer path skips the requirement checks here. -/
def eBufC3 : BufferMemoryBindingDesc := ⟨some 0, some 0, 0⟩

/-- Requirement oracle for the C3 counterexample — also alignment 0, to show
that the buffer path does not even query it for imported memory. -/
def qC3 : Nat → Nat → MemReq := fun _ _ => ⟨64, 0, false⟩

/-- Plausible concrete stage constants for witnesses: vertex = bit 0,
mesh-control = bit 1, graphics family = bits 0..3, compute = bit 4,
ray-tracing family = bits 5..7. -/
def cW : StageConsts := ⟨15, 16, 224, 1, 2, 0⟩

/-- Parent texture for the C8 example: 4 recorded mips. -/
def parentC8 : TextureDesc := ⟨true, 16, 16, 1, 4, 1, 1⟩

/-- View accepted in the C8 example: mipOffset 2, mipNum 2 against 4 mips
(2 + 2 ≤ 4). -/
def viewAcceptC8 : Texture2DViewDesc := ⟨false, true, true, 2, 2, 0, 1⟩

/-- The view of the claim's "accepted" example: mipOffset 3, mipNum 2
against 4 mips — but 3 + 2 = 5 > 4, so the code rejects it. -/
def viewClaimC8 : Texture2DViewDesc := ⟨false, true, true, 3, 2, 0, 1⟩

/-- View rejected in the C8 example: mipOffset 3, mipNum 3 against 4 mips. -/
def viewRejectC8 : Texture2DViewDesc := ⟨false, true, true, 3, 3, 0, 1⟩

/-- State for the C1/C4/C5 witnesses: unbound buffer 0, unbound texture 0,
unbound acceleration structure 0 (alignment-1 desc), memory 0 of size 2048
with known location, memory 1 of size 2048 with a buffer (id 7) still
bound. -/
def sW : DeviceState :=
  ⟨fun i => if i = 0 then some ⟨false⟩ else none,
   fun i => if i = 0 then some ⟨false⟩ else none,
   fun i => if i = 0 then some ⟨false, ⟨64, 1, false⟩⟩ else none,
   fun i => if i = 0 then some ⟨2048, some 0, [], [], []⟩
            else if i = 1 then some ⟨2048, some 0, [7], [], []⟩ else none⟩

/-- Requirement oracle for the witnesses: size 64, alignment 16, not
dedicated. -/
def qW : Nat → Nat → MemReq := fun _ _ => ⟨64, 16, false⟩

/-- A valid buffer binding entry for the witnesses. -/
def eW : BufferMemoryBindingDesc := ⟨some 0, some 0, 0⟩

/-- An invalid buffer binding entry (NULL buffer pointer). -/
def eBadW : BufferMemoryBindingDesc := ⟨none, some 0, 0⟩

/-- State for the C4 persistence witness: buffer 0 bound, memory 0 holding
it in its bound-set. -/
def sBoundW : DeviceState :=
  ⟨fun i => if i = 0 then some ⟨true⟩ else none, fun _ => none, fun _ => none,
   fun i => if i = 0 then some ⟨2048, some 0, [0], [], []⟩ else none⟩

/-! ## Theorems -/

lemma stageCheck_iff (c : StageConsts) (stages : Nat) :
    createPipelineLayoutStageCheck c stages = true ↔ stages ≠ 0 ∧ familyCount c stages = 1 := by
  unfold createPipelineLayoutStageCheck familyCount
  by_cases hg : stages &&& c.graphicsShaders = 0 <;>
    by_cases hc : stages &&& c.computeShader = 0 <;>
      by_cases hr : stages &&& c.rayTracingShaders = 0 <;>
        by_cases hz : stages = 0 <;>
          simp [hg, hc, hr, hz]

/-- C5: `FreeMemory` on a memory with a non-empty bound-set reports an
error and returns with no backend call, no proxy destruction and an
unchanged state; on an empty bound-set it always calls the backend free
and destroys the proxy. -/
theorem freeMemory_bound_set_guard :
    ∀ (s : DeviceState) (m : Nat) (ms : MemoryState), s.memories m = some ms →
      (hasBoundResources ms = true → FreeMemory s m = ⟨s, false, false, true⟩) ∧
      (hasBoundResources ms = false →
        (FreeMemory s m).backendFreeCalled = true ∧ (FreeMemory s m).proxyDestroyed = true ∧
        (FreeMemory s m).state.memories m = none) := by
  intro s m ms h
  refine ⟨fun hb => ?_, fun hb => ?_⟩ <;> simp [FreeMemory, h, hb]

/-- Witness for C5, at the concrete state `sW`: memory 1 still has buffer 7
bound and is refused with no effects; memory 0 has an empty bound-set and
is freed and destroyed. -/
theorem freeMemory_bound_set_guard_witness :
    FreeMemory sW 1 = ⟨sW, false, false, true⟩ ∧
    ((FreeMemory sW 0).backendFreeCalled = true ∧ (FreeMemory sW 0).proxyDestroyed = true ∧
      (FreeMemory sW 0).state.memories 0 = none) :=
  ⟨(freeMemory_bound_set_guard sW 1 ⟨2048, some 0, [7], [], []⟩ rfl).1 rfl,
   (freeMemory_bound_set_guard sW 0 ⟨2048, some 0, [], [], []⟩ rfl).2 rfl⟩

/-- C6: `CreatePipelineLayout` rejects with `INVALID_ARGUMENT` a stage mask
that is zero, intersects none of the three pipeline families, or
intersects two or more of them; a mask intersecting exactly one family
passes the stage-family check. -/
theorem createPipelineLayout_stage_family :
    ∀ (c : StageConsts) (desc : PipelineLayoutDesc) (r : Result) (hnd : Nat),
      ((desc.shaderStages = 0 ∨ familyCount c desc.shaderStages = 0 ∨
          2 ≤ familyCount c desc.shaderStages) →
        CreatePipelineLayout c desc r hnd = (Result.INVALID_ARGUMENT, none)) ∧
      (familyCount c desc.shaderStages = 1 →
        createPipelineLayoutStageCheck c desc.shaderStages = true) := by
  intro c desc r hnd
  constructor
  · intro hbad
    have hfc : createPipelineLayoutStageCheck c desc.shaderStages = false := by
      cases hchk : createPipelineLayoutStageCheck c desc.shaderStages
      · rfl
      · exfalso
        rcases (stageCheck_iff c _).mp hchk with ⟨hne, h1⟩
        rcases hbad with h | h | h
        · exact hne h
        · omega
        · omega
    simp [CreatePipelineLayout, hfc]
  · intro h1
    rw [stageCheck_iff]
    refine ⟨fun hz => ?_, h1⟩
    rw [hz] at h1
    simp [familyCount, Nat.zero_and] at h1

/-- Witness for C6: stage mask 17 intersects both the graphics and the
compute family of `cW` and is rejected; mask 1 intersects exactly the
graphics family and passes the stage-family check. -/
theorem createPipelineLayout_stage_family_witness :
    CreatePipelineLayout cW ⟨17, []⟩ Result.SUCCESS 5 = (Result.INVALID_ARGUMENT, none) ∧
    createPipelineLayoutStageCheck cW 1 = true :=
  ⟨(createPipelineLayout_stage_family cW ⟨17, []⟩ Result.SUCCESS 5).1
      (Or.inr (Or.inr (by decide))),
   (createPipelineLayout_stage_family cW ⟨1, []⟩ Result.SUCCESS 5).2 (by decide)⟩

set_option maxHeartbeats 1000000 in
/-- C10: for `CreateBuffer`, `CreateTexture`, `CreatePipelineLayout` and
`AllocateMemory`, the out handle is written only when the returned result
is `SUCCESS`; on every validation failure and every backend failure the
caller's variable is left unmodified (`none`). -/
theorem creation_out_handle_only_on_success :
    ∀ (bd : BufferDesc) (td : TextureDesc) (c : StageConsts) (pld : PipelineLayoutDesc)
      (mtm : Nat → Option Nat) (amd : AllocateMemoryDesc) (r : Result) (hnd : Nat),
      ((CreateBuffer bd r hnd).1 ≠ Result.SUCCESS → (CreateBuffer bd r hnd).2 = none) ∧
      ((CreateTexture td r hnd).1 ≠ Result.SUCCESS → (CreateTexture td r hnd).2 = none) ∧
      ((CreatePipelineLayout c pld r hnd).1 ≠ Result.SUCCESS →
        (CreatePipelineLayout c pld r hnd).2 = none) ∧
      ((AllocateMemory mtm amd r hnd).1 ≠ Result.SUCCESS →
        (AllocateMemory mtm amd r hnd).2 = none) := by
  intro bd td c pld mtm amd r hnd
  refine ⟨fun h1 => ?_, fun h2 => ?_, fun h3 => ?_, fun h4 => ?_⟩
  · simp only [CreateBuffer] at h1 ⊢
    split_ifs at h1 ⊢ <;> simp_all
  · simp only [CreateTexture] at h2 ⊢
    generalize GetMaxMipNum td.width td.height td.depth = M at h2 ⊢
    split_ifs at h2 ⊢ <;> simp_all
  · simp only [CreatePipelineLayout] at h3 ⊢
    split_ifs at h3 ⊢ <;> simp_all
  · simp only [AllocateMemory] at h4 ⊢
    cases hmt : mtm amd.type <;> simp only [hmt] at h4 ⊢ <;> split_ifs at h4 ⊢ <;> simp_all

/-- Witness for C10: a zero-size buffer, a zero-width texture, an
empty-stage pipeline layout, an unregistered memory type, and a backend
failure all leave the out handle unwritten. -/
theorem creation_out_handle_only_on_success_witness :
    (CreateBuffer ⟨0⟩ Result.SUCCESS 7).2 = none ∧
    (CreateBuffer ⟨10⟩ Result.OUT_OF_MEMORY 7).2 = none ∧
    (CreateTexture ⟨true, 0, 4, 1, 1, 1, 1⟩ Result.SUCCESS 7).2 = none ∧
    (CreatePipelineLayout cW ⟨0, []⟩ Result.SUCCESS 7).2 = none ∧
    (AllocateMemory (fun _ => none) ⟨5, true, 0⟩ Result.SUCCESS 7).2 = none :=
  ⟨(creation_out_handle_only_on_success ⟨0⟩ ⟨true, 0, 4, 1, 1, 1, 1⟩ cW ⟨0, []⟩
      (fun _ => none) ⟨5, true, 0⟩ Result.SUCCESS 7).1 (by decide),
   (creation_out_handle_only_on_success ⟨10⟩ ⟨true, 0, 4, 1, 1, 1, 1⟩ cW ⟨0, []⟩
      (fun _ => none) ⟨5, true, 0⟩ Result.OUT_OF_MEMORY 7).1 (by decide),
   (creation_out_handle_only_on_success ⟨0⟩ ⟨true, 0, 4, 1, 1, 1, 1⟩ cW ⟨0, []⟩
      (fun _ => none) ⟨5, true, 0⟩ Result.SUCCESS 7).2.1 (by decide),
   (creation_out_handle_only_on_success ⟨0⟩ ⟨true, 0, 4, 1, 1, 1, 1⟩ cW ⟨0, []⟩
      (fun _ => none) ⟨5, true, 0⟩ Result.SUCCESS 7).2.2.1 (by decide),
   (creation_out_handle_only_on_success ⟨0⟩ ⟨true, 0, 4, 1, 1, 1, 1⟩ cW ⟨0, []⟩
      (fun _ => none) ⟨5, true, 0⟩ Result.SUCCESS 7).2.2.2 (by decide)⟩

/-- Counterexample for C8: the claim's "accepted" instance
(mipOffset = 3, mipNum = 2, parent mipNum = 4) is in fact rejected by the
code, because 3 + 2 = 5 > 4 — consistent with the claim's own general
rule `mipOffset + mipNum ≤ P`, which this instance violates. -/
theorem texture2DView_claim_example_rejected :
    validateTexture2DView parentC8 viewClaimC8 = false := by
  decide

/-- C8 (amended): with the non-range checks passing, Texture2D view
creation's mip sub-range validation passes iff `mipOffset < parent.mipNum`
and `mipOffset + mipNum ≤ parent.mipNum`; in particular (2,2) against
4 mips is accepted and (3,3) against 4 mips is rejected. -/
theorem texture2DView_mip_bounds :
    ∀ (parent : TextureDesc) (v : Texture2DViewDesc),
      v.textureNull = false → v.viewTypeValid = true → v.formatValid = true →
      v.layerOffset < parent.layerNum → v.layerOffset + v.layerNum ≤ parent.layerNum →
      ((validateTexture2DView parent v = true ↔
         v.mipOffset < parent.mipNum ∧ v.mipOffset + v.mipNum ≤ parent.mipNum) ∧
       validateTexture2DView parentC8 viewAcceptC8 = true ∧
       validateTexture2DView parentC8 viewRejectC8 = false) := by
  intro parent v h1 h2 h3 h4 h5
  refine ⟨?_, by decide, by decide⟩
  simp [validateTexture2DView, h1, h2, h3, h4, h5]

/-- Witness for C8 at the concrete parent with 4 mips. -/
theorem texture2DView_mip_bounds_witness :
    ((validateTexture2DView parentC8 viewAcceptC8 = true ↔
       viewAcceptC8.mipOffset < parentC8.mipNum ∧
       viewAcceptC8.mipOffset + viewAcceptC8.mipNum ≤ parentC8.mipNum) ∧
     validateTexture2DView parentC8 viewAcceptC8 = true ∧
     validateTexture2DView parentC8 viewRejectC8 = false) :=
  texture2DView_mip_bounds parentC8 viewAcceptC8 (by decide) (by decide) (by decide)
    (by decide) (by decide)

/-- Counterexample for C2: at offset `2^64 - 1` with a backend-reported
size of 2, the source's `uint64_t` sum wraps to 1, so the entry passes
validation although the claim's mathematical bound
`offset + size ≤ M.size` (M.size = 100 ≠ 0) fails. -/
theorem bindBufferMemory_size_check_wraps :
    validateBufferBinding sC2 qC2 eC2 = true ∧
    ¬(memKnown100.size = 0 ∨ eC2.offset + (qC2 0 0).size ≤ memKnown100.size) := by
  constructor
  · decide
  · decide

/-- C2 (amended): for an entry with both pointers present, a live unbound
buffer and a memory with known location, validation passes iff
(mustBeDedicated → offset = 0), alignment ≠ 0, offset % alignment = 0, and
(M.size = 0 or the 64-bit wrap-around sum `offset + size` is ≤ M.size). -/
theorem validateBufferBinding_characterization :
    ∀ (s : DeviceState) (q : Nat → Nat → MemReq) (e : BufferMemoryBindingDesc)
      (b m loc : Nat) (buf : BufferState) (mem : MemoryState),
      e.buffer = some b → e.memory = some m →
      s.buffers b = some buf → s.memories m = some mem →
      buf.boundToMemory = false → mem.memoryLocation = some loc →
      (validateBufferBinding s q e = true ↔
        ((q b loc).mustBeDedicated = true → e.offset = 0) ∧
        (q b loc).alignment ≠ 0 ∧
        e.offset % (q b loc).alignment = 0 ∧
        (mem.size = 0 ∨ wrap64 (e.offset + (q b loc).size) ≤ mem.size)) := by
  intro s q e b m loc buf mem hb hm hsb hsm hbound hloc
  simp [validateBufferBinding, hb, hm, hsb, hsm, hbound, hloc]
  cases hdd : (q b loc).mustBeDedicated <;> simp [hdd, and_assoc]

/-- Witness for C2 (amended), at a well-aligned in-bounds entry. -/
theorem validateBufferBinding_characterization_witness :
    validateBufferBinding sW qW eW = true :=
  (validateBufferBinding_characterization sW qW eW 0 0 0 ⟨false⟩ ⟨2048, some 0, [], [], []⟩
    rfl rfl rfl rfl rfl rfl).mpr (by decide)

/-- C1: in every batched bind call, a validation failure returns
`INVALID_ARGUMENT` before the backend entry point is invoked, with the
validation-layer state untouched; when validation passes, the single
batched backend call is made, and the bound flags and bound-sets of every
entry are updated exactly when it returns `SUCCESS`. -/
theorem bind_memory_batch_all_or_nothing :
    ∀ (s : DeviceState) (q : Nat → Nat → MemReq) (r : Result)
      (eb : List BufferMemoryBindingDesc) (et : List TextureMemoryBindingDesc)
      (ea : List AccelerationStructureMemoryBindingDesc),
      (validateBufferEntries s q eb = false →
        BindBufferMemory s q r eb = ⟨Result.INVALID_ARGUMENT, s, false⟩) ∧
      (r ≠ Result.SUCCESS → (BindBufferMemory s q r eb).state = s) ∧
      (validateBufferEntries s q eb = true → r = Result.SUCCESS →
        BindBufferMemory s q r eb = ⟨Result.SUCCESS, applyBufferBindings s eb, true⟩) ∧
      (validateTextureEntries s q et = false →
        BindTextureMemory s q r et = ⟨Result.INVALID_ARGUMENT, s, false⟩) ∧
      (r ≠ Result.SUCCESS → (BindTextureMemory s q r et).state = s) ∧
      (validateTextureEntries s q et = true → r = Result.SUCCESS →
        BindTextureMemory s q r et = ⟨Result.SUCCESS, applyTextureBindings s et, true⟩) ∧
      (validateAccelerationStructureEntries s ea = false →
        BindAccelerationStructureMemory s r ea = ⟨Result.INVALID_ARGUMENT, s, false⟩) ∧
      (r ≠ Result.SUCCESS → (BindAccelerationStructureMemory s r ea).state = s) ∧
      (validateAccelerationStructureEntries s ea = true → r = Result.SUCCESS →
        BindAccelerationStructureMemory s r ea =
          ⟨Result.SUCCESS, applyAccelerationStructureBindings s ea, true⟩) := by
  intro s q r eb et ea
  refine ⟨fun hv => ?_, fun hr => ?_, fun hv hr => ?_, fun hv => ?_, fun hr => ?_,
    fun hv hr => ?_, fun hv => ?_, fun hr => ?_, fun hv hr => ?_⟩
  · simp [BindBufferMemory, hv]
  · unfold BindBufferMemory
    split <;> simp [hr]
  · simp [BindBufferMemory, hv, hr]
  · simp [BindTextureMemory, hv]
  · unfold BindTextureMemory
    split <;> simp [hr]
  · simp [BindTextureMemory, hv, hr]
  · simp [BindAccelerationStructureMemory, hv]
  · unfold BindAccelerationStructureMemory
    split <;> simp [hr]
  · simp [BindAccelerationStructureMemory, hv, hr]

/-- Witness for C1: a NULL-pointer entry aborts a buffer batch with no
backend call and no state change; a backend failure leaves the state
unchanged; a passing batch with backend `SUCCESS` applies the bindings;
the texture and acceleration-structure paths behave alike. -/
theorem bind_memory_batch_all_or_nothing_witness :
    BindBufferMemory sW qW Result.SUCCESS [eBadW] = ⟨Result.INVALID_ARGUMENT, sW, false⟩ ∧
    (BindBufferMemory sW qW Result.OUT_OF_MEMORY [eW]).state = sW ∧
    BindBufferMemory sW qW Result.SUCCESS [eW] =
      ⟨Result.SUCCESS, applyBufferBindings sW [eW], true⟩ ∧
    BindTextureMemory sW qW Result.SUCCESS [⟨none, some 0, 0⟩] =
      ⟨Result.INVALID_ARGUMENT, sW, false⟩ ∧
    BindAccelerationStructureMemory sW Result.SUCCESS [⟨5, 0, 0⟩] =
      ⟨Result.INVALID_ARGUMENT, sW, false⟩ :=
  ⟨(bind_memory_batch_all_or_nothing sW qW Result.SUCCESS [eBadW] [] []).1 (by decide),
   (bind_memory_batch_all_or_nothing sW qW Result.OUT_OF_MEMORY [eW] [] []).2.1 (by decide),
   (bind_memory_batch_all_or_nothing sW qW Result.SUCCESS [eW] [] []).2.2.1 (by decide) rfl,
   (bind_memory_batch_all_or_nothing sW qW Result.SUCCESS [] [⟨none, some 0, 0⟩] []).2.2.2.1
      (by decide),
   (bind_memory_batch_all_or_nothing sW qW Result.SUCCESS [] []
      [⟨5, 0, 0⟩]).2.2.2.2.2.2.1 (by decide)⟩

lemma validateGraphicsShaders_iff (c : StageConsts) (L : Nat) :
    ∀ (l : List ShaderDesc) (u : Nat) (h : Bool),
      validateGraphicsShaders c L l u h = true ↔
        ((∀ sh ∈ l, goodGraphicsShader c L sh) ∧ stagesDisjointFrom u l ∧
          (h = true ∨ ∃ sh ∈ l, isEntryPointStage c sh)) := by
  intro l
  induction l with
  | nil => intro u h; simp [validateGraphicsShaders, stagesDisjointFrom]
  | cons sh rest ih =>
    intro u h
    simp only [validateGraphicsShaders, isShaderStageValid]
    split_ifs with h1 h2 h3
    · simp only [beq_iff_eq] at h1
      constructor
      · intro hf; simp at hf
      · rintro ⟨hg, -, -⟩
        exact absurd h1 (hg sh (List.mem_cons_self _ _)).1
    · constructor
      · intro hf; simp at hf
      · rintro ⟨hg, -, -⟩
        have := (hg sh (List.mem_cons_self _ _)).2.1
        simp_all
    · simp only [beq_iff_eq] at h3
      constructor
      · intro hf; simp at hf
      · rintro ⟨hg, -, -⟩
        exact absurd h3 (hg sh (List.mem_cons_self _ _)).2.2.1
    · -- all three front checks passed; split_ifs also split the uniqueness check
      rename_i h4
      simp only [beq_iff_eq] at h1 h3
      have h4' : popCount (sh.stage &&& c.graphicsShaders) = 1 ∧ u &&& sh.stage = 0 := by
        simpa using h4
      rw [ih]
      simp only [stagesDisjointFrom, goodGraphicsShader, isEntryPointStage]
      constructor
      · rintro ⟨hg, hd, he⟩
        refine ⟨?_, ⟨h4'.2, hd⟩, ?_⟩
        · intro x hx
          rcases List.mem_cons.mp hx with rfl | hx
          · exact ⟨h1, by simp_all, h3, h4'.1⟩
          · exact hg x hx
        · rcases he with he | he
          · rcases Bool.or_eq_true _ _ |>.mp he with he' | he'
            · rcases Bool.or_eq_true _ _ |>.mp he' with he'' | he''
              · exact Or.inl he''
              · exact Or.inr ⟨sh, List.mem_cons_self _ _, Or.inl (by simpa using he'')⟩
            · exact Or.inr ⟨sh, List.mem_cons_self _ _, Or.inr (by simpa using he')⟩
          · rcases he with ⟨x, hx, hxe⟩
            exact Or.inr ⟨x, List.mem_cons_of_mem _ hx, hxe⟩
      · rintro ⟨hg, hd, he⟩
        refine ⟨fun x hx => hg x (List.mem_cons_of_mem _ hx), hd.2, ?_⟩
        rcases he with he | ⟨x, hx, hxe⟩
        · exact Or.inl (by simp [he])
        · rcases List.mem_cons.mp hx with rfl | hx
          · rcases hxe with hxe | hxe
            · exact Or.inl (by simp [hxe])
            · exact Or.inl (by simp [hxe])
          · exact Or.inr ⟨x, hx, hxe⟩
    · -- uniqueness check failed
      rename_i h4
      simp only [beq_iff_eq] at h1 h3
      have h4' : ¬(popCount (sh.stage &&& c.graphicsShaders) = 1 ∧ u &&& sh.stage = 0) := by
        intro hc
        exact h4 (by simp [hc.1, hc.2])
      constructor
      · intro hf; simp at hf
      · rintro ⟨hg, hd, -⟩
        exact absurd ⟨(hg sh (List.mem_cons_self _ _)).2.2.2, hd.1⟩ h4'

lemma popCount_eq_zero (x : Nat) : popCount x = 0 ↔ x = 0 := by
  induction x using Nat.strong_induction_on with
  | _ x ih =>
    rw [popCount]
    split
    · simp [*]
    · rename_i hx
      have hlt : x / 2 < x := Nat.div_lt_self (Nat.pos_of_ne_zero hx) one_lt_two
      have h2 := ih (x / 2) hlt
      constructor
      · intro hsum
        exfalso
        have hp : popCount (x / 2) = 0 := by omega
        have hz : x / 2 = 0 := h2.mp hp
        have hm : x % 2 = 0 := by omega
        omega
      · intro h0; exact absurd h0 hx

lemma popCount_two_pow (k : Nat) : popCount (2 ^ k) = 1 := by
  induction k with
  | zero => simp [popCount]
  | succ k ihk =>
    have hne : 2 ^ (k + 1) ≠ 0 := by positivity
    rw [popCount, if_neg hne]
    have h2 : 2 ^ (k + 1) % 2 = 0 := by
      rw [Nat.pow_succ]
      exact Nat.mul_mod_left _ _
    have h3 : 2 ^ (k + 1) / 2 = 2 ^ k := by
      rw [Nat.pow_succ]
      exact Nat.mul_div_cancel _ (by omega)
    rw [h2, h3, ihk]

lemma land_testBit_false {a c : Nat} (h : a &&& c = 0) (i : Nat) :
    (a.testBit i && c.testBit i) = false := by
  have := congrArg (fun n => n.testBit i) h
  simpa [Nat.testBit_land, Nat.zero_testBit] using this

lemma lor_land_eq_zero {a b c : Nat} (ha : a &&& c = 0) (hb : b &&& c = 0) :
    (a ||| b) &&& c = 0 := by
  apply Nat.eq_of_testBit_eq
  intro i
  have h1 := land_testBit_false ha i
  have h2 := land_testBit_false hb i
  rw [Nat.testBit_land, Nat.testBit_lor, Nat.zero_testBit]
  cases hha : a.testBit i <;> cases hhb : b.testBit i <;> cases hhc : c.testBit i <;> simp_all

lemma land_zero_of_lor_left {a b c : Nat} (h : (a ||| b) &&& c = 0) : a &&& c = 0 := by
  apply Nat.eq_of_testBit_eq
  intro i
  have := land_testBit_false h i
  rw [Nat.testBit_lor] at this
  rw [Nat.testBit_land, Nat.zero_testBit]
  cases hha : a.testBit i <;> cases hhb : b.testBit i <;> cases hhc : c.testBit i <;> simp_all

lemma land_zero_of_lor_right {a b c : Nat} (h : (a ||| b) &&& c = 0) : b &&& c = 0 := by
  apply Nat.eq_of_testBit_eq
  intro i
  have := land_testBit_false h i
  rw [Nat.testBit_lor] at this
  rw [Nat.testBit_land, Nat.zero_testBit]
  cases hha : a.testBit i <;> cases hhb : b.testBit i <;> cases hhc : c.testBit i <;> simp_all

lemma two_pow_land_two_pow {i j : Nat} (h : i ≠ j) : 2 ^ i &&& 2 ^ j = 0 := by
  apply Nat.eq_of_testBit_eq
  intro n
  rw [Nat.testBit_land, Nat.zero_testBit]
  rcases eq_or_ne n j with rfl | hnj
  · rw [Nat.testBit_two_pow_of_ne h]
    simp
  · rw [Nat.testBit_two_pow_of_ne (Ne.symm hnj)]
    simp

lemma two_pow_land_of_testBit {k g : Nat} (h : g.testBit k = true) : 2 ^ k &&& g = 2 ^ k := by
  apply Nat.eq_of_testBit_eq
  intro n
  rw [Nat.testBit_land]
  rcases eq_or_ne n k with rfl | hnk
  · simp [Nat.testBit_two_pow_self, h]
  · rw [Nat.testBit_two_pow_of_ne (Ne.symm hnk)]
    simp

lemma land_ne_zero_of_testBit {a b k : Nat} (ha : a.testBit k = true) (hb : b.testBit k = true) :
    a &&& b ≠ 0 := by
  intro h0
  have := congrArg (fun n => n.testBit k) h0
  simp [Nat.testBit_land, ha, hb, Nat.zero_testBit] at this

lemma stagesDisjointFrom_mem {u : Nat} : ∀ {l : List ShaderDesc}, stagesDisjointFrom u l →
    ∀ sh ∈ l, u &&& sh.stage = 0 := by
  intro l
  induction l generalizing u with
  | nil => intro _ sh hsh; simp at hsh
  | cons x rest ih =>
    rintro ⟨hx, hrest⟩ sh hsh
    rcases List.mem_cons.mp hsh with rfl | hsh
    · exact hx
    · exact land_zero_of_lor_left (ih hrest sh hsh)

lemma stagesDisjointFrom_pairwise {u : Nat} : ∀ {l : List ShaderDesc}, stagesDisjointFrom u l →
    List.Pairwise (fun a b => a.stage &&& b.stage = 0) l := by
  intro l
  induction l generalizing u with
  | nil => intro _; exact List.Pairwise.nil
  | cons x rest ih =>
    rintro ⟨hx, hrest⟩
    refine List.Pairwise.cons ?_ (ih hrest)
    intro b hb
    exact land_zero_of_lor_right (stagesDisjointFrom_mem hrest b hb)

lemma stagesDisjointFrom_build {u : Nat} : ∀ {l : List ShaderDesc},
    (∀ sh ∈ l, u &&& sh.stage = 0) →
    List.Pairwise (fun a b => a.stage &&& b.stage = 0) l →
    stagesDisjointFrom u l := by
  intro l
  induction l generalizing u with
  | nil => intro _ _; trivial
  | cons x rest ih =>
    intro hall hpw
    refine ⟨hall x (List.mem_cons_self _ _), ?_⟩
    rcases List.pairwise_cons.mp hpw with ⟨hx, hrest⟩
    exact ih (fun sh hsh => lor_land_eq_zero (hall sh (List.mem_cons_of_mem _ hsh)) (hx sh hsh))
      hrest

/-- C7: graphics-pipeline creation rejects with `INVALID_ARGUMENT` when two
shader entries share a stage bit inside the graphics family, when an
entry's masked graphics-family bits do not have popcount exactly one, or
when no entry's stage equals vertex or mesh-control; a list in which every
entry claims one distinct graphics stage bit enabled in the layout, with
non-NULL nonempty bytecode, and containing a vertex-or-mesh-control entry,
passes the shader-stage checks. -/
theorem graphics_pipeline_stage_uniqueness :
    ∀ (c : StageConsts) (L : Nat) (shaders : List ShaderDesc),
      (∀ (i j : Nat) (hi : i < shaders.length) (hj : j < shaders.length), i ≠ j →
        (shaders.get ⟨i, hi⟩).stage &&& (shaders.get ⟨j, hj⟩).stage &&& c.graphicsShaders ≠ 0 →
        graphicsShaderChecks c L shaders = false) ∧
      (∀ sh ∈ shaders, popCount (sh.stage &&& c.graphicsShaders) ≠ 1 →
        graphicsShaderChecks c L shaders = false) ∧
      ((∀ sh ∈ shaders, ¬ isEntryPointStage c sh) → graphicsShaderChecks c L shaders = false) ∧
      ((∀ sh ∈ shaders,
          (∃ k, sh.stage = 2 ^ k ∧ L.testBit k = true ∧ c.graphicsShaders.testBit k = true) ∧
          sh.bytecodeNull = false ∧ sh.size ≠ 0) →
        List.Pairwise (fun a b => a.stage ≠ b.stage) shaders →
        (∃ sh ∈ shaders, isEntryPointStage c sh) →
        graphicsShaderChecks c L shaders = true) := by
  intro c L shaders
  refine ⟨?_, ?_, ?_, ?_⟩
  · intro i j hi hj hij hshare
    cases hchk : graphicsShaderChecks c L shaders
    · rfl
    · exfalso
      have hc := (validateGraphicsShaders_iff c L shaders 0 false).mp hchk
      have hpw := stagesDisjointFrom_pairwise hc.2.1
      have hd : (shaders.get ⟨i, hi⟩).stage &&& (shaders.get ⟨j, hj⟩).stage = 0 := by
        rcases Nat.lt_or_ge i j with hlt | hge
        · exact (List.pairwise_iff_get.mp hpw) ⟨i, hi⟩ ⟨j, hj⟩ (by simpa using hlt)
        · have hlt : j < i := by omega
          have hsym := (List.pairwise_iff_get.mp hpw) ⟨j, hj⟩ ⟨i, hi⟩ (by simpa using hlt)
          rw [Nat.land_comm]
          exact hsym
      apply hshare
      rw [hd]
      exact Nat.zero_and _
  · intro sh hsh hpc
    cases hchk : graphicsShaderChecks c L shaders
    · rfl
    · exfalso
      exact hpc (((validateGraphicsShaders_iff c L shaders 0 false).mp hchk).1 sh hsh).2.2.2
  · intro hno
    cases hchk : graphicsShaderChecks c L shaders
    · rfl
    · exfalso
      rcases ((validateGraphicsShaders_iff c L shaders 0 false).mp hchk).2.2 with hf | ⟨x, hx, hxe⟩
      · simp at hf
      · exact hno x hx hxe
  · intro hgood hpw hentry
    apply (validateGraphicsShaders_iff c L shaders 0 false).mpr
    refine ⟨?_, ?_, Or.inr hentry⟩
    · intro sh hsh
      rcases hgood sh hsh with ⟨⟨k, hk, hLk, hgk⟩, hbc, hsz⟩
      refine ⟨?_, hbc, hsz, ?_⟩
      · rw [hk]
        exact land_ne_zero_of_testBit Nat.testBit_two_pow_self hLk
      · rw [hk, two_pow_land_of_testBit hgk, popCount_two_pow]
    · apply stagesDisjointFrom_build
      · intro sh _
        exact Nat.zero_and _
      · refine List.Pairwise.imp_of_mem (fun {a b} ha hb hne => ?_) hpw
        rcases hgood a ha with ⟨⟨ka, hka, -, -⟩, -, -⟩
        rcases hgood b hb with ⟨⟨kb, hkb, -, -⟩, -, -⟩
        rw [hka, hkb]
        apply two_pow_land_two_pow
        intro hkk
        apply hne
        rw [hka, hkb, hkk]

/-- Witness for C7 with concrete stage constants: a vertex+fragment pair is
accepted; a duplicated vertex stage is rejected; a fragment-only pipeline
(no entry point) is rejected. -/
theorem graphics_pipeline_stage_uniqueness_witness :
    graphicsShaderChecks cW 15 [⟨1, false, 4⟩, ⟨4, false, 4⟩] = true ∧
    graphicsShaderChecks cW 15 [⟨1, false, 4⟩, ⟨1, false, 4⟩] = false ∧
    graphicsShaderChecks cW 15 [⟨4, false, 4⟩] = false := by
  refine ⟨(graphics_pipeline_stage_uniqueness cW 15 _).2.2.2 ?_ ?_ ?_,
    (graphics_pipeline_stage_uniqueness cW 15 _).1 0 1 (by decide) (by decide) (by decide)
      (by decide),
    (graphics_pipeline_stage_uniqueness cW 15 _).2.2.1 ?_⟩
  · intro sh hsh
    fin_cases hsh
    · exact ⟨⟨0, by decide, by decide, by decide⟩, rfl, by decide⟩
    · exact ⟨⟨2, by decide, by decide, by decide⟩, rfl, by decide⟩
  · decide
  · exact ⟨⟨1, false, 4⟩, List.mem_cons_self _ _, Or.inl rfl⟩
  · intro sh hsh
    fin_cases hsh
    intro hcon
    rcases hcon with hcon | hcon <;> simp [cW] at hcon

lemma max3_halves (w h d : Nat) (hw : 0 < w) (hh : 0 < h) (hd : 0 < d)
    (hmax : 2 ≤ max (max w h) d) :
    max (max (if w > 1 then w / 2 else w) (if h > 1 then h / 2 else h))
      (if d > 1 then d / 2 else d) = max (max w h) d / 2 := by
  simp only [Nat.max_def] at hmax ⊢
  split_ifs at hmax ⊢ <;> omega

lemma GetMaxMipNum_eq_log2 : ∀ (w h d : Nat), 0 < w → 0 < h → 0 < d →
    GetMaxMipNum w h d = 1 + Nat.log2 (max (max w h) d) := by
  intro w h d
  induction w, h, d using GetMaxMipNum.induct with
  | case1 w h d hcond ih =>
    intro hw hh hd
    simp only [dite_eq_ite] at ih
    have hmax : 2 ≤ max (max w h) d := by
      rcases hcond with hc | hc | hc
      · calc 2 ≤ w := hc
          _ ≤ max w h := le_max_left _ _
          _ ≤ max (max w h) d := le_max_left _ _
      · calc 2 ≤ h := hc
          _ ≤ max w h := le_max_right _ _
          _ ≤ max (max w h) d := le_max_left _ _
      · calc 2 ≤ d := hc
          _ ≤ max (max w h) d := le_max_right _ _
    rw [GetMaxMipNum, if_pos hcond]
    rw [ih (by split <;> omega) (by split <;> omega) (by split <;> omega)]
    rw [max3_halves w h d hw hh hd hmax]
    conv_rhs => rw [Nat.log2]
    rw [if_pos hmax]
    omega
  | case2 w h d hcond =>
    intro hw hh hd
    have hw1 : w = 1 := by omega
    have hh1 : h = 1 := by omega
    have hd1 : d = 1 := by omega
    subst hw1 hh1 hd1
    rw [GetMaxMipNum]
    norm_num
    rw [Nat.log2]
    norm_num

set_option maxHeartbeats 1000000 in
/-- C9: for nonzero width/height/depth, the texture mip bound computed by
repeated halving equals `1 + floor(log2(max(width, height, depth)))` with
a 1×1×1 floor; `CreateTexture` rejects with `INVALID_ARGUMENT` any mipNum
above it, and accepts (forwarding the backend result) any nonzero mipNum
at or below it when the other descriptor checks pass. -/
theorem createTexture_mip_bound :
    ∀ (desc : TextureDesc) (r : Result) (hnd : Nat),
      0 < desc.width → 0 < desc.height → 0 < desc.depth →
      (GetMaxMipNum desc.width desc.height desc.depth =
        1 + Nat.log2 (max (max desc.width desc.height) desc.depth)) ∧
      (GetMaxMipNum desc.width desc.height desc.depth < desc.mipNum →
        CreateTexture desc r hnd = (Result.INVALID_ARGUMENT, none)) ∧
      (desc.formatValid = true → desc.mipNum ≠ 0 →
        desc.mipNum ≤ GetMaxMipNum desc.width desc.height desc.depth →
        desc.layerNum ≠ 0 → desc.sampleNum ≠ 0 →
        CreateTexture desc r hnd =
          (r, if r = Result.SUCCESS then some hnd else none)) := by
  intro desc r hnd hw hh hd
  refine ⟨GetMaxMipNum_eq_log2 _ _ _ hw hh hd, fun hgt => ?_, fun hf hm hle hl hs => ?_⟩
  · simp only [CreateTexture]
    generalize GetMaxMipNum desc.width desc.height desc.depth = M at hgt ⊢
    split_ifs <;> try rfl
    all_goals exfalso
    all_goals simp_all
  · simp only [CreateTexture]
    generalize GetMaxMipNum desc.width desc.height desc.depth = M at hle ⊢
    split_ifs <;> try rfl
    all_goals exfalso
    all_goals simp_all

/-- Witness for C9: a 16×16×1 texture has mip bound 5 = 1 + log2 16;
mipNum 6 is rejected and mipNum 5 is accepted. -/
theorem createTexture_mip_bound_witness :
    GetMaxMipNum 16 16 1 = 1 + Nat.log2 16 ∧
    CreateTexture ⟨true, 16, 16, 1, 6, 1, 1⟩ Result.SUCCESS 7 = (Result.INVALID_ARGUMENT, none) ∧
    CreateTexture ⟨true, 16, 16, 1, 5, 1, 1⟩ Result.SUCCESS 7 = (Result.SUCCESS, some 7) := by
  have hmax : GetMaxMipNum 16 16 1 = 5 := by
    simp [GetMaxMipNum]
  refine ⟨(createTexture_mip_bound ⟨true, 16, 16, 1, 6, 1, 1⟩ Result.SUCCESS 7
      (by decide) (by decide) (by decide)).1, ?_, ?_⟩
  · exact (createTexture_mip_bound ⟨true, 16, 16, 1, 6, 1, 1⟩ Result.SUCCESS 7
      (by decide) (by decide) (by decide)).2.1 (by rw [hmax]; decide)
  · have h := (createTexture_mip_bound ⟨true, 16, 16, 1, 5, 1, 1⟩ Result.SUCCESS 7
      (by decide) (by decide) (by decide)).2.2 rfl (by decide) (by rw [hmax]) (by decide)
      (by decide)
    simpa using h


/-- Counterexample for C3: with an imported memory (location sentinel) and
an unbound acceleration structure whose recorded desc has alignment 0,
`BindAccelerationStructureMemory`'s per-entry validation still runs the
requirement checks and rejects, while the identical situation on the
buffer path skips them and passes — the three validators are not the same
algorithm. -/
theorem per_entry_validation_not_uniform :
    sC3.memories 0 = some memImported ∧ memImported.memoryLocation = none ∧
    sC3.accelerationStructures 0 = some ⟨false, ⟨64, 0, false⟩⟩ ∧
    validateAccelerationStructureBinding sC3 eC3 = false ∧
    validateBufferBinding sC3 qC3 eBufC3 = true := by
  refine ⟨rfl, rfl, rfl, by decide, by decide⟩

/-- C3 (amended): `BindBufferMemory` and `BindTextureMemory` share the
per-entry algorithm — reject absent pointers, reject an already-bound
resource, and skip the requirement checks exactly when the memory's
location is the unknown/imported sentinel; `BindAccelerationStructureMemory`
differs: it performs no NULL-pointer checks and always applies the
requirement checks, against the memory desc recorded at creation instead
of a backend query. -/
theorem per_entry_validation_amended :
    (∀ (s : DeviceState) (q : Nat → Nat → MemReq) (e : BufferMemoryBindingDesc)
       (b m : Nat) (buf : BufferState) (mem : MemoryState),
       e.buffer = some b → e.memory = some m →
       s.buffers b = some buf → s.memories m = some mem → mem.memoryLocation = none →
       (validateBufferBinding s q e = true ↔ buf.boundToMemory = false)) ∧
    (∀ (s : DeviceState) (q : Nat → Nat → MemReq) (e : TextureMemoryBindingDesc)
       (t m : Nat) (tex : TextureState) (mem : MemoryState),
       e.texture = some t → e.memory = some m →
       s.textures t = some tex → s.memories m = some mem → mem.memoryLocation = none →
       (validateTextureBinding s q e = true ↔ tex.boundToMemory = false)) ∧
    (∀ (s : DeviceState) (e : AccelerationStructureMemoryBindingDesc)
       (accel : AccelerationStructureState) (mem : MemoryState),
       s.accelerationStructures e.accelerationStructure = some accel →
       s.memories e.memory = some mem →
       (validateAccelerationStructureBinding s e = true ↔
         accel.boundToMemory = false ∧
         (accel.memoryDesc.mustBeDedicated = true → e.offset = 0) ∧
         accel.memoryDesc.alignment ≠ 0 ∧
         e.offset % accel.memoryDesc.alignment = 0 ∧
         (mem.size = 0 ∨ wrap64 (e.offset + accel.memoryDesc.size) ≤ mem.size))) ∧
    (∀ (s : DeviceState) (q : Nat → Nat → MemReq) (e : BufferMemoryBindingDesc),
       e.buffer = none ∨ e.memory = none → validateBufferBinding s q e = false) ∧
    (∀ (s : DeviceState) (q : Nat → Nat → MemReq) (e : TextureMemoryBindingDesc),
       e.texture = none ∨ e.memory = none → validateTextureBinding s q e = false) ∧
    (∀ (s : DeviceState) (q : Nat → Nat → MemReq) (e : BufferMemoryBindingDesc)
       (b : Nat) (buf : BufferState), e.buffer = some b → s.buffers b = some buf →
       buf.boundToMemory = true → validateBufferBinding s q e = false) ∧
    (∀ (s : DeviceState) (q : Nat → Nat → MemReq) (e : TextureMemoryBindingDesc)
       (t : Nat) (tex : TextureState), e.texture = some t → s.textures t = some tex →
       tex.boundToMemory = true → validateTextureBinding s q e = false) ∧
    (∀ (s : DeviceState) (e : AccelerationStructureMemoryBindingDesc)
       (accel : AccelerationStructureState),
       s.accelerationStructures e.accelerationStructure = some accel →
       accel.boundToMemory = true → validateAccelerationStructureBinding s e = false) := by
  refine ⟨?_, ?_, ?_, ?_, ?_, ?_, ?_, ?_⟩
  · intro s q e b m buf mem hb hm hsb hsm hloc
    simp [validateBufferBinding, hb, hm, hsb, hsm, hloc]
  · intro s q e t m tex mem ht hm hst hsm hloc
    simp [validateTextureBinding, ht, hm, hst, hsm, hloc]
  · intro s e accel mem hsa hsm
    simp [validateAccelerationStructureBinding, hsa, hsm]
    cases hdd : accel.memoryDesc.mustBeDedicated <;> simp [hdd, and_assoc]
  · rintro s q e (hb | hm)
    · simp [validateBufferBinding, hb]
    · cases he : e.buffer <;> simp [validateBufferBinding, he, hm]
  · rintro s q e (ht | hm)
    · simp [validateTextureBinding, ht]
    · cases he : e.texture <;> simp [validateTextureBinding, he, hm]
  · intro s q e b buf hb hsb hbound
    cases hm : e.memory
    · simp [validateBufferBinding, hb, hm]
    · rename_i m
      cases hmm : s.memories m <;>
        simp [validateBufferBinding, hb, hm, hsb, hbound, hmm]
  · intro s q e t tex ht hst hbound
    cases hm : e.memory
    · simp [validateTextureBinding, ht, hm]
    · rename_i m
      cases hmm : s.memories m <;>
        simp [validateTextureBinding, ht, hm, hst, hbound, hmm]
  · intro s e accel hsa hbound
    cases hm : s.memories e.memory <;>
      simp [validateAccelerationStructureBinding, hsa, hbound, hm]

/-- Witness for C3 (amended): the buffer path skips the requirement checks
for imported memory and accepts; a NULL buffer pointer is rejected; the
acceleration-structure path still rejects the same imported-memory
situation because the recorded alignment is 0. -/
theorem per_entry_validation_amended_witness :
    validateBufferBinding sC3 qC3 eBufC3 = true ∧
    validateBufferBinding sC3 qC3 ⟨none, some 0, 0⟩ = false ∧
    ¬ validateAccelerationStructureBinding sC3 eC3 = true :=
  ⟨(per_entry_validation_amended.1 sC3 qC3 eBufC3 0 0 ⟨false⟩ memImported
      rfl rfl rfl rfl rfl).mpr rfl,
   per_entry_validation_amended.2.2.2.1 sC3 qC3 ⟨none, some 0, 0⟩ (Or.inl rfl),
   fun hv =>
     absurd ((per_entry_validation_amended.2.2.1 sC3 eC3 ⟨false, ⟨64, 0, false⟩⟩ memImported
       rfl rfl).mp hv).2.2.1 (by decide)⟩


/-! ### Field-preservation and monotonicity lemmas for `step` -/

lemma bindBufferToMemory_buffers_isSome (s : DeviceState) (b0 m b : Nat) :
    ((bindBufferToMemory s b0 m).buffers b).isSome = (s.buffers b).isSome := by
  simp only [bindBufferToMemory]
  by_cases hb : b = b0
  · subst hb
    cases hs : s.buffers b <;> simp [hs]
  · simp [hb]

lemma bindBufferToMemory_flag (s : DeviceState) (b0 m b : Nat)
    (h : bufferBoundFlag (s.buffers b) = true) :
    bufferBoundFlag ((bindBufferToMemory s b0 m).buffers b) = true := by
  simp only [bindBufferToMemory]
  by_cases hb : b = b0
  · subst hb
    cases hs : s.buffers b
    · rw [hs] at h
      simp [bufferBoundFlag] at h
    · simp [hs, bufferBoundFlag]
  · simpa [hb] using h

lemma applyBufferBindings_textures (l : List BufferMemoryBindingDesc) :
    ∀ s, (applyBufferBindings s l).textures = s.textures := by
  induction l with
  | nil => intro s; rfl
  | cons e rest ih =>
    intro s
    cases he : e.buffer <;> cases hm : e.memory <;>
      simp only [applyBufferBindings, he, hm] <;> rw [ih] <;> try rfl

lemma applyBufferBindings_accels (l : List BufferMemoryBindingDesc) :
    ∀ s, (applyBufferBindings s l).accelerationStructures = s.accelerationStructures := by
  induction l with
  | nil => intro s; rfl
  | cons e rest ih =>
    intro s
    cases he : e.buffer <;> cases hm : e.memory <;>
      simp only [applyBufferBindings, he, hm] <;> rw [ih] <;> try rfl

lemma applyBufferBindings_buffers_isSome (l : List BufferMemoryBindingDesc) :
    ∀ s b, ((applyBufferBindings s l).buffers b).isSome = (s.buffers b).isSome := by
  induction l with
  | nil => intro s b; rfl
  | cons e rest ih =>
    intro s b
    cases he : e.buffer <;> cases hm : e.memory <;>
      simp only [applyBufferBindings, he, hm] <;> rw [ih] <;> try rfl
    rw [bindBufferToMemory_buffers_isSome]

lemma applyBufferBindings_flag (l : List BufferMemoryBindingDesc) :
    ∀ s b, bufferBoundFlag (s.buffers b) = true →
      bufferBoundFlag ((applyBufferBindings s l).buffers b) = true := by
  induction l with
  | nil => intro s b h; exact h
  | cons e rest ih =>
    intro s b h
    cases he : e.buffer <;> cases hm : e.memory <;> simp only [applyBufferBindings, he, hm]
    · exact ih s b h
    · exact ih s b h
    · exact ih s b h
    · exact ih _ b (bindBufferToMemory_flag s _ _ b h)

lemma bindTextureToMemory_textures_isSome (s : DeviceState) (t0 m t : Nat) :
    ((bindTextureToMemory s t0 m).textures t).isSome = (s.textures t).isSome := by
  simp only [bindTextureToMemory]
  by_cases ht : t = t0
  · subst ht
    cases hs : s.textures t <;> simp [hs]
  · simp [ht]

lemma bindTextureToMemory_flag (s : DeviceState) (t0 m t : Nat)
    (h : textureBoundFlag (s.textures t) = true) :
    textureBoundFlag ((bindTextureToMemory s t0 m).textures t) = true := by
  simp only [bindTextureToMemory]
  by_cases ht : t = t0
  · subst ht
    cases hs : s.textures t
    · rw [hs] at h
      simp [textureBoundFlag] at h
    · simp [hs, textureBoundFlag]
  · simpa [ht] using h

lemma applyTextureBindings_buffers (l : List TextureMemoryBindingDesc) :
    ∀ s, (applyTextureBindings s l).buffers = s.buffers := by
  induction l with
  | nil => intro s; rfl
  | cons e rest ih =>
    intro s
    cases he : e.texture <;> cases hm : e.memory <;>
      simp only [applyTextureBindings, he, hm] <;> rw [ih] <;> try rfl

lemma applyTextureBindings_accels (l : List TextureMemoryBindingDesc) :
    ∀ s, (applyTextureBindings s l).accelerationStructures = s.accelerationStructures := by
  induction l with
  | nil => intro s; rfl
  | cons e rest ih =>
    intro s
    cases he : e.texture <;> cases hm : e.memory <;>
      simp only [applyTextureBindings, he, hm] <;> rw [ih] <;> try rfl

lemma applyTextureBindings_textures_isSome (l : List TextureMemoryBindingDesc) :
    ∀ s t, ((applyTextureBindings s l).textures t).isSome = (s.textures t).isSome := by
  induction l with
  | nil => intro s t; rfl
  | cons e rest ih =>
    intro s t
    cases he : e.texture <;> cases hm : e.memory <;>
      simp only [applyTextureBindings, he, hm] <;> rw [ih]
    rw [bindTextureToMemory_textures_isSome]

lemma applyTextureBindings_flag (l : List TextureMemoryBindingDesc) :
    ∀ s t, textureBoundFlag (s.textures t) = true →
      textureBoundFlag ((applyTextureBindings s l).textures t) = true := by
  induction l with
  | nil => intro s t h; exact h
  | cons e rest ih =>
    intro s t h
    cases he : e.texture <;> cases hm : e.memory <;> simp only [applyTextureBindings, he, hm]
    · exact ih s t h
    · exact ih s t h
    · exact ih s t h
    · exact ih _ t (bindTextureToMemory_flag s _ _ t h)

lemma bindASToMemory_accels_isSome (s : DeviceState) (a0 m a : Nat) :
    ((bindAccelerationStructureToMemory s a0 m).accelerationStructures a).isSome =
      (s.accelerationStructures a).isSome := by
  simp only [bindAccelerationStructureToMemory]
  by_cases ha : a = a0
  · subst ha
    cases hs : s.accelerationStructures a <;> simp [hs]
  · simp [ha]

lemma bindASToMemory_flag (s : DeviceState) (a0 m a : Nat)
    (h : accelBoundFlag (s.accelerationStructures a) = true) :
    accelBoundFlag ((bindAccelerationStructureToMemory s a0 m).accelerationStructures a) =
      true := by
  simp only [bindAccelerationStructureToMemory]
  by_cases ha : a = a0
  · subst ha
    cases hs : s.accelerationStructures a
    · rw [hs] at h
      simp [accelBoundFlag] at h
    · simp [hs, accelBoundFlag]
  · simpa [ha] using h

lemma applyASBindings_buffers (l : List AccelerationStructureMemoryBindingDesc) :
    ∀ s, (applyAccelerationStructureBindings s l).buffers = s.buffers := by
  induction l with
  | nil => intro s; rfl
  | cons e rest ih =>
    intro s
    simp only [applyAccelerationStructureBindings]
    rw [ih]
    try rfl

lemma applyASBindings_textures (l : List AccelerationStructureMemoryBindingDesc) :
    ∀ s, (applyAccelerationStructureBindings s l).textures = s.textures := by
  induction l with
  | nil => intro s; rfl
  | cons e rest ih =>
    intro s
    simp only [applyAccelerationStructureBindings]
    rw [ih]
    try rfl

lemma applyASBindings_accels_isSome (l : List AccelerationStructureMemoryBindingDesc) :
    ∀ s a, ((applyAccelerationStructureBindings s l).accelerationStructures a).isSome =
      (s.accelerationStructures a).isSome := by
  induction l with
  | nil => intro s a; rfl
  | cons e rest ih =>
    intro s a
    simp only [applyAccelerationStructureBindings]
    rw [ih, bindASToMemory_accels_isSome]

lemma applyASBindings_flag (l : List AccelerationStructureMemoryBindingDesc) :
    ∀ s a, accelBoundFlag (s.accelerationStructures a) = true →
      accelBoundFlag ((applyAccelerationStructureBindings s l).accelerationStructures a) =
        true := by
  induction l with
  | nil => intro s a h; exact h
  | cons e rest ih =>
    intro s a h
    simp only [applyAccelerationStructureBindings]
    exact ih _ a (bindASToMemory_flag s _ _ a h)

lemma setBufferBound_isSome (s : DeviceState) (b0 b : Nat) :
    ((setBufferBound s b0).buffers b).isSome = (s.buffers b).isSome := by
  simp only [setBufferBound]
  by_cases hb : b = b0
  · subst hb
    cases hs : s.buffers b <;> simp [hs]
  · simp [hb]

lemma setBufferBound_flag (s : DeviceState) (b0 b : Nat)
    (h : bufferBoundFlag (s.buffers b) = true) :
    bufferBoundFlag ((setBufferBound s b0).buffers b) = true := by
  simp only [setBufferBound]
  by_cases hb : b = b0
  · subst hb
    cases hs : s.buffers b
    · rw [hs] at h
      simp [bufferBoundFlag] at h
    · simp [hs, bufferBoundFlag]
  · simpa [hb] using h

lemma foldl_setBufferBound_isSome (l : List Nat) :
    ∀ s b, ((l.foldl setBufferBound s).buffers b).isSome = (s.buffers b).isSome := by
  induction l with
  | nil => intro s b; rfl
  | cons x rest ih =>
    intro s b
    simp only [List.foldl_cons]
    rw [ih, setBufferBound_isSome]

lemma foldl_setBufferBound_flag (l : List Nat) :
    ∀ s b, bufferBoundFlag (s.buffers b) = true →
      bufferBoundFlag (((l.foldl setBufferBound s).buffers b)) = true := by
  induction l with
  | nil => intro s b h; exact h
  | cons x rest ih =>
    intro s b h
    simp only [List.foldl_cons]
    exact ih _ b (setBufferBound_flag s x b h)

lemma foldl_setBufferBound_textures (l : List Nat) :
    ∀ s, (l.foldl setBufferBound s).textures = s.textures := by
  induction l with
  | nil => intro s; rfl
  | cons x rest ih =>
    intro s
    simp only [List.foldl_cons]
    rw [ih]
    try rfl

lemma foldl_setBufferBound_accels (l : List Nat) :
    ∀ s, (l.foldl setBufferBound s).accelerationStructures = s.accelerationStructures := by
  induction l with
  | nil => intro s; rfl
  | cons x rest ih =>
    intro s
    simp only [List.foldl_cons]
    rw [ih]
    try rfl

lemma setTextureBound_isSome (s : DeviceState) (t0 t : Nat) :
    ((setTextureBound s t0).textures t).isSome = (s.textures t).isSome := by
  simp only [setTextureBound]
  by_cases ht : t = t0
  · subst ht
    cases hs : s.textures t <;> simp [hs]
  · simp [ht]

lemma setTextureBound_flag (s : DeviceState) (t0 t : Nat)
    (h : textureBoundFlag (s.textures t) = true) :
    textureBoundFlag ((setTextureBound s t0).textures t) = true := by
  simp only [setTextureBound]
  by_cases ht : t = t0
  · subst ht
    cases hs : s.textures t
    · rw [hs] at h
      simp [textureBoundFlag] at h
    · simp [hs, textureBoundFlag]
  · simpa [ht] using h

lemma foldl_setTextureBound_isSome (l : List Nat) :
    ∀ s t, ((l.foldl setTextureBound s).textures t).isSome = (s.textures t).isSome := by
  induction l with
  | nil => intro s t; rfl
  | cons x rest ih =>
    intro s t
    simp only [List.foldl_cons]
    rw [ih, setTextureBound_isSome]

lemma foldl_setTextureBound_flag (l : List Nat) :
    ∀ s t, textureBoundFlag (s.textures t) = true →
      textureBoundFlag (((l.foldl setTextureBound s).textures t)) = true := by
  induction l with
  | nil => intro s t h; exact h
  | cons x rest ih =>
    intro s t h
    simp only [List.foldl_cons]
    exact ih _ t (setTextureBound_flag s x t h)

lemma foldl_setTextureBound_buffers (l : List Nat) :
    ∀ s, (l.foldl setTextureBound s).buffers = s.buffers := by
  induction l with
  | nil => intro s; rfl
  | cons x rest ih =>
    intro s
    simp only [List.foldl_cons]
    rw [ih]
    try rfl

lemma foldl_setTextureBound_accels (l : List Nat) :
    ∀ s, (l.foldl setTextureBound s).accelerationStructures = s.accelerationStructures := by
  induction l with
  | nil => intro s; rfl
  | cons x rest ih =>
    intro s
    simp only [List.foldl_cons]
    rw [ih]
    try rfl

lemma addMemoryProxies_resources (loc : Nat) (l : List Nat) :
    ∀ s, (addMemoryProxies loc s l).buffers = s.buffers ∧
      (addMemoryProxies loc s l).textures = s.textures ∧
      (addMemoryProxies loc s l).accelerationStructures = s.accelerationStructures := by
  induction l with
  | nil => intro s; exact ⟨rfl, rfl, rfl⟩
  | cons x rest ih =>
    intro s
    simp only [addMemoryProxies]
    exact ih _

lemma FreeMemory_resources (s : DeviceState) (m : Nat) :
    (FreeMemory s m).state.buffers = s.buffers ∧
    (FreeMemory s m).state.textures = s.textures ∧
    (FreeMemory s m).state.accelerationStructures = s.accelerationStructures := by
  cases hm : s.memories m
  · simp [FreeMemory, hm]
  · simp only [FreeMemory, hm]
    split_ifs <;> simp

lemma step_buffer_keep (s : DeviceState) (op : Op) (b : Nat)
    (hflag : bufferBoundFlag (s.buffers b) = true)
    (hlive : ((step s op).buffers b).isSome = true) :
    bufferBoundFlag ((step s op).buffers b) = true := by
  have hsome : (s.buffers b).isSome = true := by
    cases hs : s.buffers b
    · rw [hs] at hflag
      simp [bufferBoundFlag] at hflag
    · rfl
  cases op with
  | createBuffer id r =>
    simp only [step]
    split_ifs with hc
    · have hb : ¬ b = id := by
        intro hbe
        rw [hbe, hc.2] at hsome
        simp at hsome
      simpa [hb] using hflag
    · exact hflag
  | allocateBuffer id r =>
    simp only [step]
    split_ifs with hc
    · by_cases hb : b = id
      · subst hb
        simp [bufferBoundFlag]
      · simpa [hb] using hflag
    · exact hflag
  | createTexture id r =>
    simp only [step]
    split_ifs with hc <;> exact hflag
  | allocateTexture id r =>
    simp only [step]
    split_ifs with hc <;> exact hflag
  | createAccelerationStructure id md r =>
    simp only [step]
    split_ifs with hc <;> exact hflag
  | allocateAccelerationStructure id md r =>
    simp only [step]
    split_ifs with hc <;> exact hflag
  | allocateMemory id size loc r =>
    simp only [step]
    split_ifs with hc <;> exact hflag
  | createBufferFromNativeHandle id r =>
    simp only [step]
    split_ifs with hc
    · by_cases hb : b = id
      · subst hb
        simp [bufferBoundFlag]
      · simpa [hb] using hflag
    · exact hflag
  | createTextureFromNativeHandle id r =>
    simp only [step]
    split_ifs with hc <;> exact hflag
  | createAccelerationStructureFromNativeHandle id r =>
    simp only [step]
    split_ifs with hc <;> exact hflag
  | createMemoryFromNativeHandle id size r =>
    simp only [step]
    split_ifs with hc <;> exact hflag
  | bindBufferMemoryOp q entries r =>
    simp only [step, BindBufferMemory]
    split_ifs with hv hr
    · exact applyBufferBindings_flag entries s b hflag
    · exact hflag
    · exact hflag
  | bindTextureMemoryOp q entries r =>
    simp only [step, BindTextureMemory]
    split_ifs with hv hr
    · show bufferBoundFlag ((applyTextureBindings s entries).buffers b) = true
      rw [applyTextureBindings_buffers]
      exact hflag
    · exact hflag
    · exact hflag
  | bindAccelerationStructureMemoryOp entries r =>
    simp only [step, BindAccelerationStructureMemory]
    split_ifs with hv hr
    · show bufferBoundFlag ((applyAccelerationStructureBindings s entries).buffers b) = true
      rw [applyASBindings_buffers]
      exact hflag
    · exact hflag
    · exact hflag
  | allocateAndBindMemoryOp bufferIds textureIds memoryIds loc r =>
    simp only [step]
    split_ifs with hc
    · show bufferBoundFlag
        ((addMemoryProxies loc
          (textureIds.foldl setTextureBound (bufferIds.foldl setBufferBound s))
          memoryIds).buffers b) = true
      rw [(addMemoryProxies_resources loc memoryIds _).1, foldl_setTextureBound_buffers]
      exact foldl_setBufferBound_flag bufferIds s b hflag
    · exact hflag
  | freeMemoryOp id =>
    show bufferBoundFlag ((FreeMemory s id).state.buffers b) = true
    rw [(FreeMemory_resources s id).1]
    exact hflag
  | destroyBuffer id =>
    simp only [step, destroyBufferProxy] at hlive ⊢
    by_cases hb : b = id
    · subst hb
      simp at hlive
    · simpa [hb] using hflag
  | destroyTexture id =>
    exact hflag
  | destroyAccelerationStructure id =>
    exact hflag

lemma step_buffer_raise (s : DeviceState) (op : Op) (b : Nat)
    (h0 : bufferBoundFlag (s.buffers b) = false)
    (h1 : bufferBoundFlag ((step s op).buffers b) = true) :
    (isSuccessfulBindStep op || isSuccessfulWrapperImportStep op) = true := by
  cases op with
  | createBuffer id r =>
    exfalso
    simp only [step] at h1
    split_ifs at h1 with hc
    · by_cases hb : b = id
      · subst hb
        simp [bufferBoundFlag] at h1
      · simp [hb, h0] at h1
    · simp [h0] at h1
  | allocateBuffer id r =>
    simp only [step] at h1
    split_ifs at h1 with hc
    · simp [isSuccessfulBindStep, isSuccessfulWrapperImportStep, hc.1]
    · exfalso
      simp [h0] at h1
  | createTexture id r =>
    exfalso
    simp only [step] at h1
    split_ifs at h1 <;> simp [h0] at h1
  | allocateTexture id r =>
    exfalso
    simp only [step] at h1
    split_ifs at h1 <;> simp [h0] at h1
  | createAccelerationStructure id md r =>
    exfalso
    simp only [step] at h1
    split_ifs at h1 <;> simp [h0] at h1
  | allocateAccelerationStructure id md r =>
    exfalso
    simp only [step] at h1
    split_ifs at h1 <;> simp [h0] at h1
  | allocateMemory id size loc r =>
    exfalso
    simp only [step] at h1
    split_ifs at h1 <;> simp [h0] at h1
  | createBufferFromNativeHandle id r =>
    simp only [step] at h1
    split_ifs at h1 with hc
    · simp [isSuccessfulBindStep, isSuccessfulWrapperImportStep, hc.1]
    · exfalso
      simp [h0] at h1
  | createTextureFromNativeHandle id r =>
    exfalso
    simp only [step] at h1
    split_ifs at h1 <;> simp [h0] at h1
  | createAccelerationStructureFromNativeHandle id r =>
    exfalso
    simp only [step] at h1
    split_ifs at h1 <;> simp [h0] at h1
  | createMemoryFromNativeHandle id size r =>
    exfalso
    simp only [step] at h1
    split_ifs at h1 <;> simp [h0] at h1
  | bindBufferMemoryOp q entries r =>
    simp only [step, BindBufferMemory] at h1
    split_ifs at h1 with hv hr
    · simp [isSuccessfulBindStep, isSuccessfulWrapperImportStep, hr]
    · exfalso
      simp [h0] at h1
    · exfalso
      simp [h0] at h1
  | bindTextureMemoryOp q entries r =>
    simp only [step, BindTextureMemory] at h1
    split_ifs at h1 with hv hr
    · simp [isSuccessfulBindStep, isSuccessfulWrapperImportStep, hr]
    · exfalso
      simp [h0] at h1
    · exfalso
      simp [h0] at h1
  | bindAccelerationStructureMemoryOp entries r =>
    simp only [step, BindAccelerationStructureMemory] at h1
    split_ifs at h1 with hv hr
    · simp [isSuccessfulBindStep, isSuccessfulWrapperImportStep, hr]
    · exfalso
      simp [h0] at h1
    · exfalso
      simp [h0] at h1
  | allocateAndBindMemoryOp bufferIds textureIds memoryIds loc r =>
    simp only [step] at h1
    split_ifs at h1 with hc
    · simp only [Bool.and_eq_true, decide_eq_true_eq] at hc
      simp [isSuccessfulBindStep, isSuccessfulWrapperImportStep, hc.1.1]
    · exfalso
      simp [h0] at h1
  | freeMemoryOp id =>
    exfalso
    simp only [step] at h1
    rw [show (FreeMemory s id).state.buffers = s.buffers from (FreeMemory_resources s id).1]
      at h1
    simp [h0] at h1
  | destroyBuffer id =>
    exfalso
    simp only [step, destroyBufferProxy] at h1
    by_cases hb : b = id
    · subst hb
      simp [bufferBoundFlag] at h1
    · simp [hb, h0] at h1
  | destroyTexture id =>
    exfalso
    simp only [step, destroyTextureProxy] at h1
    simp [h0] at h1
  | destroyAccelerationStructure id =>
    exfalso
    simp only [step, destroyAccelerationStructureProxy] at h1
    simp [h0] at h1

lemma step_texture_keep (s : DeviceState) (op : Op) (t : Nat)
    (hflag : textureBoundFlag (s.textures t) = true)
    (hlive : ((step s op).textures t).isSome = true) :
    textureBoundFlag ((step s op).textures t) = true := by
  have hsome : (s.textures t).isSome = true := by
    cases hs : s.textures t
    · rw [hs] at hflag
      simp [textureBoundFlag] at hflag
    · rfl
  cases op with
  | createBuffer id r =>
    simp only [step]
    split_ifs with hc <;> exact hflag
  | allocateBuffer id r =>
    simp only [step]
    split_ifs with hc <;> exact hflag
  | createTexture id r =>
    simp only [step]
    split_ifs with hc
    · have ht : ¬ t = id := by
        intro hte
        rw [hte, hc.2] at hsome
        simp at hsome
      simpa [ht] using hflag
    · exact hflag
  | allocateTexture id r =>
    simp only [step]
    split_ifs with hc
    · by_cases ht : t = id
      · subst ht
        simp [textureBoundFlag]
      · simpa [ht] using hflag
    · exact hflag
  | createAccelerationStructure id md r =>
    simp only [step]
    split_ifs with hc <;> exact hflag
  | allocateAccelerationStructure id md r =>
    simp only [step]
    split_ifs with hc <;> exact hflag
  | allocateMemory id size loc r =>
    simp only [step]
    split_ifs with hc <;> exact hflag
  | createBufferFromNativeHandle id r =>
    simp only [step]
    split_ifs with hc <;> exact hflag
  | createTextureFromNativeHandle id r =>
    simp only [step]
    split_ifs with hc
    · by_cases ht : t = id
      · subst ht
        simp [textureBoundFlag]
      · simpa [ht] using hflag
    · exact hflag
  | createAccelerationStructureFromNativeHandle id r =>
    simp only [step]
    split_ifs with hc <;> exact hflag
  | createMemoryFromNativeHandle id size r =>
    simp only [step]
    split_ifs with hc <;> exact hflag
  | bindBufferMemoryOp q entries r =>
    simp only [step, BindBufferMemory]
    split_ifs with hv hr
    · show textureBoundFlag ((applyBufferBindings s entries).textures t) = true
      rw [applyBufferBindings_textures]
      exact hflag
    · exact hflag
    · exact hflag
  | bindTextureMemoryOp q entries r =>
    simp only [step, BindTextureMemory]
    split_ifs with hv hr
    · exact applyTextureBindings_flag entries s t hflag
    · exact hflag
    · exact hflag
  | bindAccelerationStructureMemoryOp entries r =>
    simp only [step, BindAccelerationStructureMemory]
    split_ifs with hv hr
    · show textureBoundFlag ((applyAccelerationStructureBindings s entries).textures t) = true
      rw [applyASBindings_textures]
      exact hflag
    · exact hflag
    · exact hflag
  | allocateAndBindMemoryOp bufferIds textureIds memoryIds loc r =>
    simp only [step]
    split_ifs with hc
    · show textureBoundFlag
        ((addMemoryProxies loc
          (textureIds.foldl setTextureBound (bufferIds.foldl setBufferBound s))
          memoryIds).textures t) = true
      rw [(addMemoryProxies_resources loc memoryIds _).2.1]
      refine foldl_setTextureBound_flag textureIds _ t ?_
      rw [foldl_setBufferBound_textures]
      exact hflag
    · exact hflag
  | freeMemoryOp id =>
    show textureBoundFlag ((FreeMemory s id).state.textures t) = true
    rw [(FreeMemory_resources s id).2.1]
    exact hflag
  | destroyBuffer id =>
    exact hflag
  | destroyTexture id =>
    simp only [step, destroyTextureProxy] at hlive ⊢
    by_cases ht : t = id
    · subst ht
      simp at hlive
    · simpa [ht] using hflag
  | destroyAccelerationStructure id =>
    exact hflag

lemma step_texture_raise (s : DeviceState) (op : Op) (t : Nat)
    (h0 : textureBoundFlag (s.textures t) = false)
    (h1 : textureBoundFlag ((step s op).textures t) = true) :
    (isSuccessfulBindStep op || isSuccessfulWrapperImportStep op) = true := by
  cases op with
  | createBuffer id r =>
    exfalso
    simp only [step] at h1
    split_ifs at h1 <;> simp [h0] at h1
  | allocateBuffer id r =>
    simp only [step] at h1
    split_ifs at h1 with hc
    · simp [isSuccessfulBindStep, isSuccessfulWrapperImportStep, hc.1]
    · exfalso
      simp [h0] at h1
  | createTexture id r =>
    exfalso
    simp only [step] at h1
    split_ifs at h1 with hc
    · by_cases ht : t = id
      · subst ht
        simp [textureBoundFlag] at h1
      · simp [ht, h0] at h1
    · simp [h0] at h1
  | allocateTexture id r =>
    simp only [step] at h1
    split_ifs at h1 with hc
    · simp [isSuccessfulBindStep, isSuccessfulWrapperImportStep, hc.1]
    · exfalso
      simp [h0] at h1
  | createAccelerationStructure id md r =>
    exfalso
    simp only [step] at h1
    split_ifs at h1 <;> simp [h0] at h1
  | allocateAccelerationStructure id md r =>
    exfalso
    simp only [step] at h1
    split_ifs at h1 <;> simp [h0] at h1
  | allocateMemory id size loc r =>
    exfalso
    simp only [step] at h1
    split_ifs at h1 <;> simp [h0] at h1
  | createBufferFromNativeHandle id r =>
    exfalso
    simp only [step] at h1
    split_ifs at h1 <;> simp [h0] at h1
  | createTextureFromNativeHandle id r =>
    simp only [step] at h1
    split_ifs at h1 with hc
    · simp [isSuccessfulBindStep, isSuccessfulWrapperImportStep, hc.1]
    · exfalso
      simp [h0] at h1
  | createAccelerationStructureFromNativeHandle id r =>
    exfalso
    simp only [step] at h1
    split_ifs at h1 <;> simp [h0] at h1
  | createMemoryFromNativeHandle id size r =>
    exfalso
    simp only [step] at h1
    split_ifs at h1 <;> simp [h0] at h1
  | bindBufferMemoryOp q entries r =>
    simp only [step, BindBufferMemory] at h1
    split_ifs at h1 with hv hr
    · simp [isSuccessfulBindStep, isSuccessfulWrapperImportStep, hr]
    · exfalso
      simp [h0] at h1
    · exfalso
      simp [h0] at h1
  | bindTextureMemoryOp q entries r =>
    simp only [step, BindTextureMemory] at h1
    split_ifs at h1 with hv hr
    · simp [isSuccessfulBindStep, isSuccessfulWrapperImportStep, hr]
    · exfalso
      simp [h0] at h1
    · exfalso
      simp [h0] at h1
  | bindAccelerationStructureMemoryOp entries r =>
    simp only [step, BindAccelerationStructureMemory] at h1
    split_ifs at h1 with hv hr
    · simp [isSuccessfulBindStep, isSuccessfulWrapperImportStep, hr]
    · exfalso
      simp [h0] at h1
    · exfalso
      simp [h0] at h1
  | allocateAndBindMemoryOp bufferIds textureIds memoryIds loc r =>
    simp only [step] at h1
    split_ifs at h1 with hc
    · simp only [Bool.and_eq_true, decide_eq_true_eq] at hc
      simp [isSuccessfulBindStep, isSuccessfulWrapperImportStep, hc.1.1]
    · exfalso
      simp [h0] at h1
  | freeMemoryOp id =>
    exfalso
    simp only [step] at h1
    rw [show (FreeMemory s id).state.textures = s.textures from (FreeMemory_resources s id).2.1]
      at h1
    simp [h0] at h1
  | destroyBuffer id =>
    exfalso
    simp only [step, destroyBufferProxy] at h1
    simp [h0] at h1
  | destroyTexture id =>
    exfalso
    simp only [step, destroyTextureProxy] at h1
    by_cases ht : t = id
    · subst ht
      simp [textureBoundFlag] at h1
    · simp [ht, h0] at h1
  | destroyAccelerationStructure id =>
    exfalso
    simp only [step, destroyAccelerationStructureProxy] at h1
    simp [h0] at h1

lemma step_accel_keep (s : DeviceState) (op : Op) (a : Nat)
    (hflag : accelBoundFlag (s.accelerationStructures a) = true)
    (hlive : ((step s op).accelerationStructures a).isSome = true) :
    accelBoundFlag ((step s op).accelerationStructures a) = true := by
  have hsome : (s.accelerationStructures a).isSome = true := by
    cases hs : s.accelerationStructures a
    · rw [hs] at hflag
      simp [accelBoundFlag] at hflag
    · rfl
  cases op with
  | createBuffer id r =>
    simp only [step]
    split_ifs with hc <;> exact hflag
  | allocateBuffer id r =>
    simp only [step]
    split_ifs with hc <;> exact hflag
  | createTexture id r =>
    simp only [step]
    split_ifs with hc <;> exact hflag
  | allocateTexture id r =>
    simp only [step]
    split_ifs with hc <;> exact hflag
  | createAccelerationStructure id md r =>
    simp only [step]
    split_ifs with hc
    · have ha : ¬ a = id := by
        intro hae
        rw [hae, hc.2] at hsome
        simp at hsome
      simpa [ha] using hflag
    · exact hflag
  | allocateAccelerationStructure id md r =>
    simp only [step]
    split_ifs with hc
    · by_cases ha : a = id
      · subst ha
        simp [accelBoundFlag]
      · simpa [ha] using hflag
    · exact hflag
  | allocateMemory id size loc r =>
    simp only [step]
    split_ifs with hc <;> exact hflag
  | createBufferFromNativeHandle id r =>
    simp only [step]
    split_ifs with hc <;> exact hflag
  | createTextureFromNativeHandle id r =>
    simp only [step]
    split_ifs with hc <;> exact hflag
  | createAccelerationStructureFromNativeHandle id r =>
    simp only [step]
    split_ifs with hc
    · by_cases ha : a = id
      · subst ha
        simp [accelBoundFlag]
      · simpa [ha] using hflag
    · exact hflag
  | createMemoryFromNativeHandle id size r =>
    simp only [step]
    split_ifs with hc <;> exact hflag
  | bindBufferMemoryOp q entries r =>
    simp only [step, BindBufferMemory]
    split_ifs with hv hr
    · show accelBoundFlag ((applyBufferBindings s entries).accelerationStructures a) = true
      rw [applyBufferBindings_accels]
      exact hflag
    · exact hflag
    · exact hflag
  | bindTextureMemoryOp q entries r =>
    simp only [step, BindTextureMemory]
    split_ifs with hv hr
    · show accelBoundFlag ((applyTextureBindings s entries).accelerationStructures a) = true
      rw [applyTextureBindings_accels]
      exact hflag
    · exact hflag
    · exact hflag
  | bindAccelerationStructureMemoryOp entries r =>
    simp only [step, BindAccelerationStructureMemory]
    split_ifs with hv hr
    · exact applyASBindings_flag entries s a hflag
    · exact hflag
    · exact hflag
  | allocateAndBindMemoryOp bufferIds textureIds memoryIds loc r =>
    simp only [step]
    split_ifs with hc
    · show accelBoundFlag
        ((addMemoryProxies loc
          (textureIds.foldl setTextureBound (bufferIds.foldl setBufferBound s))
          memoryIds).accelerationStructures a) = true
      rw [(addMemoryProxies_resources loc memoryIds _).2.2, foldl_setTextureBound_accels,
        foldl_setBufferBound_accels]
      exact hflag
    · exact hflag
  | freeMemoryOp id =>
    show accelBoundFlag ((FreeMemory s id).state.accelerationStructures a) = true
    rw [(FreeMemory_resources s id).2.2]
    exact hflag
  | destroyBuffer id =>
    exact hflag
  | destroyTexture id =>
    exact hflag
  | destroyAccelerationStructure id =>
    simp only [step, destroyAccelerationStructureProxy] at hlive ⊢
    by_cases ha : a = id
    · subst ha
      simp at hlive
    · simpa [ha] using hflag

lemma step_accel_raise (s : DeviceState) (op : Op) (a : Nat)
    (h0 : accelBoundFlag (s.accelerationStructures a) = false)
    (h1 : accelBoundFlag ((step s op).accelerationStructures a) = true) :
    (isSuccessfulBindStep op || isSuccessfulWrapperImportStep op) = true := by
  cases op with
  | createBuffer id r =>
    exfalso
    simp only [step] at h1
    split_ifs at h1 <;> simp [h0] at h1
  | allocateBuffer id r =>
    simp only [step] at h1
    split_ifs at h1 with hc
    · simp [isSuccessfulBindStep, isSuccessfulWrapperImportStep, hc.1]
    · exfalso
      simp [h0] at h1
  | createTexture id r =>
    exfalso
    simp only [step] at h1
    split_ifs at h1 <;> simp [h0] at h1
  | allocateTexture id r =>
    simp only [step] at h1
    split_ifs at h1 with hc
    · simp [isSuccessfulBindStep, isSuccessfulWrapperImportStep, hc.1]
    · exfalso
      simp [h0] at h1
  | createAccelerationStructure id md r =>
    exfalso
    simp only [step] at h1
    split_ifs at h1 with hc
    · by_cases ha : a = id
      · subst ha
        simp [accelBoundFlag] at h1
      · simp [ha, h0] at h1
    · simp [h0] at h1
  | allocateAccelerationStructure id md r =>
    simp only [step] at h1
    split_ifs at h1 with hc
    · simp [isSuccessfulBindStep, isSuccessfulWrapperImportStep, hc.1]
    · exfalso
      simp [h0] at h1
  | allocateMemory id size loc r =>
    exfalso
    simp only [step] at h1
    split_ifs at h1 <;> simp [h0] at h1
  | createBufferFromNativeHandle id r =>
    exfalso
    simp only [step] at h1
    split_ifs at h1 <;> simp [h0] at h1
  | createTextureFromNativeHandle id r =>
    exfalso
    simp only [step] at h1
    split_ifs at h1 <;> simp [h0] at h1
  | createAccelerationStructureFromNativeHandle id r =>
    simp only [step] at h1
    split_ifs at h1 with hc
    · simp [isSuccessfulBindStep, isSuccessfulWrapperImportStep, hc.1]
    · exfalso
      simp [h0] at h1
  | createMemoryFromNativeHandle id size r =>
    exfalso
    simp only [step] at h1
    split_ifs at h1 <;> simp [h0] at h1
  | bindBufferMemoryOp q entries r =>
    simp only [step, BindBufferMemory] at h1
    split_ifs at h1 with hv hr
    · simp [isSuccessfulBindStep, isSuccessfulWrapperImportStep, hr]
    · exfalso
      simp [h0] at h1
    · exfalso
      simp [h0] at h1
  | bindTextureMemoryOp q entries r =>
    simp only [step, BindTextureMemory] at h1
    split_ifs at h1 with hv hr
    · simp [isSuccessfulBindStep, isSuccessfulWrapperImportStep, hr]
    · exfalso
      simp [h0] at h1
    · exfalso
      simp [h0] at h1
  | bindAccelerationStructureMemoryOp entries r =>
    simp only [step, BindAccelerationStructureMemory] at h1
    split_ifs at h1 with hv hr
    · simp [isSuccessfulBindStep, isSuccessfulWrapperImportStep, hr]
    · exfalso
      simp [h0] at h1
    · exfalso
      simp [h0] at h1
  | allocateAndBindMemoryOp bufferIds textureIds memoryIds loc r =>
    simp only [step] at h1
    split_ifs at h1 with hc
    · simp only [Bool.and_eq_true, decide_eq_true_eq] at hc
      simp [isSuccessfulBindStep, isSuccessfulWrapperImportStep, hc.1.1]
    · exfalso
      simp [h0] at h1
  | freeMemoryOp id =>
    exfalso
    simp only [step] at h1
    rw [show (FreeMemory s id).state.accelerationStructures = s.accelerationStructures from
      (FreeMemory_resources s id).2.2] at h1
    simp [h0] at h1
  | destroyBuffer id =>
    exfalso
    simp only [step, destroyBufferProxy] at h1
    simp [h0] at h1
  | destroyTexture id =>
    exfalso
    simp only [step, destroyTextureProxy] at h1
    simp [h0] at h1
  | destroyAccelerationStructure id =>
    exfalso
    simp only [step, destroyAccelerationStructureProxy] at h1
    by_cases ha : a = id
    · subst ha
      simp [accelBoundFlag] at h1
    · simp [ha, h0] at h1

lemma bufferAliveAlong_head (b : Nat) (s : DeviceState) (ops : List Op)
    (h : bufferAliveAlong b s ops = true) : (s.buffers b).isSome = true := by
  cases ops <;> simp only [bufferAliveAlong, Bool.and_eq_true] at h
  · exact h
  · exact h.1

lemma textureAliveAlong_head (t : Nat) (s : DeviceState) (ops : List Op)
    (h : textureAliveAlong t s ops = true) : (s.textures t).isSome = true := by
  cases ops <;> simp only [textureAliveAlong, Bool.and_eq_true] at h
  · exact h
  · exact h.1

lemma accelAliveAlong_head (a : Nat) (s : DeviceState) (ops : List Op)
    (h : accelAliveAlong a s ops = true) : (s.accelerationStructures a).isSome = true := by
  cases ops <;> simp only [accelAliveAlong, Bool.and_eq_true] at h
  · exact h
  · exact h.1

lemma runOps_buffer_keep (ops : List Op) :
    ∀ s b, bufferAliveAlong b s ops = true → bufferBoundFlag (s.buffers b) = true →
      bufferBoundFlag ((runOps s ops).buffers b) = true := by
  induction ops with
  | nil => intro s b _ h; exact h
  | cons op rest ih =>
    intro s b halive hflag
    simp only [bufferAliveAlong, Bool.and_eq_true] at halive
    have hnext : ((step s op).buffers b).isSome = true :=
      bufferAliveAlong_head b _ rest halive.2
    exact ih (step s op) b halive.2 (step_buffer_keep s op b hflag hnext)

lemma runOps_texture_keep (ops : List Op) :
    ∀ s t, textureAliveAlong t s ops = true → textureBoundFlag (s.textures t) = true →
      textureBoundFlag ((runOps s ops).textures t) = true := by
  induction ops with
  | nil => intro s t _ h; exact h
  | cons op rest ih =>
    intro s t halive hflag
    simp only [textureAliveAlong, Bool.and_eq_true] at halive
    have hnext : ((step s op).textures t).isSome = true :=
      textureAliveAlong_head t _ rest halive.2
    exact ih (step s op) t halive.2 (step_texture_keep s op t hflag hnext)

lemma runOps_accel_keep (ops : List Op) :
    ∀ s a, accelAliveAlong a s ops = true →
      accelBoundFlag (s.accelerationStructures a) = true →
      accelBoundFlag ((runOps s ops).accelerationStructures a) = true := by
  induction ops with
  | nil => intro s a _ h; exact h
  | cons op rest ih =>
    intro s a halive hflag
    simp only [accelAliveAlong, Bool.and_eq_true] at halive
    have hnext : ((step s op).accelerationStructures a).isSome = true :=
      accelAliveAlong_head a _ rest halive.2
    exact ih (step s op) a halive.2 (step_accel_keep s op a hflag hnext)

/-- Counterexample for C4: wrapping a pre-existing native buffer
(`DeviceVal::CreateBuffer(BufferVKDesc)`, and likewise the D3D11/D3D12
overloads and the texture / acceleration-structure wrappers) registers the
proxy with its bound flag already true when the backend wrapper creation
returns `SUCCESS` — a step in which no backend bind and no
allocate-and-bind call was made, contradicting the claim's
"becomes true only in a step where a backend bind (or allocate-and-bind)
call returned SUCCESS". -/
theorem bound_flag_raised_by_wrapper_import :
    bufferBoundFlag (emptyState.buffers 0) = false ∧
    bufferBoundFlag
      ((step emptyState (Op.createBufferFromNativeHandle 0 Result.SUCCESS)).buffers 0) =
        true ∧
    isSuccessfulBindStep (Op.createBufferFromNativeHandle 0 Result.SUCCESS) = false := by
  refine ⟨rfl, by decide, rfl⟩

/-- C4 (amended): a resource's bound-to-memory flag is raised only by a
step whose backend bind or allocate-and-bind call returned `SUCCESS`, or
by a wrapper-import creation that wraps a pre-existing native backend
handle (registered already bound) whose backend call returned `SUCCESS`;
and, for every trace of operations during which the resource stays live, a
flag that is true never becomes false — live resources are never rebound
or unbound, for all three resource kinds. -/
theorem bound_flag_temporal :
    ∀ (s : DeviceState) (id : Nat),
      (∀ op : Op, bufferBoundFlag (s.buffers id) = false →
        bufferBoundFlag ((step s op).buffers id) = true → (isSuccessfulBindStep op || isSuccessfulWrapperImportStep op) = true) ∧
      (∀ op : Op, textureBoundFlag (s.textures id) = false →
        textureBoundFlag ((step s op).textures id) = true → (isSuccessfulBindStep op || isSuccessfulWrapperImportStep op) = true) ∧
      (∀ op : Op, accelBoundFlag (s.accelerationStructures id) = false →
        accelBoundFlag ((step s op).accelerationStructures id) = true →
        (isSuccessfulBindStep op || isSuccessfulWrapperImportStep op) = true) ∧
      (∀ ops : List Op, bufferAliveAlong id s ops = true →
        bufferBoundFlag (s.buffers id) = true →
        bufferBoundFlag ((runOps s ops).buffers id) = true) ∧
      (∀ ops : List Op, textureAliveAlong id s ops = true →
        textureBoundFlag (s.textures id) = true →
        textureBoundFlag ((runOps s ops).textures id) = true) ∧
      (∀ ops : List Op, accelAliveAlong id s ops = true →
        accelBoundFlag (s.accelerationStructures id) = true →
        accelBoundFlag ((runOps s ops).accelerationStructures id) = true) := by
  intro s id
  exact ⟨fun op => step_buffer_raise s op id,
    fun op => step_texture_raise s op id,
    fun op => step_accel_raise s op id,
    fun ops => runOps_buffer_keep ops s id,
    fun ops => runOps_texture_keep ops s id,
    fun ops => runOps_accel_keep ops s id⟩


/-- Witness for C4 (amended): on `sW`, a successful buffer / texture /
acceleration-structure bind and a wrapper import are flag-raising steps;
on a state with a bound buffer, a refused `FreeMemory` and an unrelated
`CreateBuffer` leave the flag true. -/
theorem bound_flag_temporal_witness :
    (isSuccessfulBindStep (Op.bindBufferMemoryOp qW [eW] Result.SUCCESS) ||
      isSuccessfulWrapperImportStep (Op.bindBufferMemoryOp qW [eW] Result.SUCCESS)) = true ∧
    (isSuccessfulBindStep (Op.bindTextureMemoryOp qW [⟨some 0, some 0, 0⟩] Result.SUCCESS) ||
      isSuccessfulWrapperImportStep
        (Op.bindTextureMemoryOp qW [⟨some 0, some 0, 0⟩] Result.SUCCESS)) = true ∧
    (isSuccessfulBindStep (Op.bindAccelerationStructureMemoryOp [⟨0, 0, 0⟩] Result.SUCCESS) ||
      isSuccessfulWrapperImportStep
        (Op.bindAccelerationStructureMemoryOp [⟨0, 0, 0⟩] Result.SUCCESS)) = true ∧
    (isSuccessfulBindStep (Op.createBufferFromNativeHandle 5 Result.SUCCESS) ||
      isSuccessfulWrapperImportStep
        (Op.createBufferFromNativeHandle 5 Result.SUCCESS)) = true ∧
    bufferBoundFlag
      ((runOps sBoundW [Op.freeMemoryOp 0, Op.createBuffer 3 Result.SUCCESS]).buffers 0) =
        true :=
  ⟨(bound_flag_temporal sW 0).1 _ (by decide) (by decide),
   (bound_flag_temporal sW 0).2.1 _ (by decide) (by decide),
   (bound_flag_temporal sW 0).2.2.1 _ (by decide) (by decide),
   (bound_flag_temporal sW 5).1 _ (by decide) (by decide),
   (bound_flag_temporal sBoundW 0).2.2.2.1 _ (by decide) (by decide)⟩


end NRIVal
